import Mathlib

/-
Verification of the Intel 8080 emulator core (lib.rs, memory.rs, flags.rs)
as a shallow embedding. Machine integers are Nat with explicit reduction
modulo 2^8 / 2^16 at the points where the Rust code wraps; the release
semantics of Rust integer addition on u16 (wrap on overflow) is used for
the bare additions in the source. Memory is a function from addresses to
bytes. Host callbacks for the IN and OUT instructions are passed to the
step function as parameters, since the Rust CPU struct stores raw function
pointers.
-/

/-- Popcount of a byte; models count_ones on u8 (all call sites apply it
to 8-bit results). -/
def count_ones (n : Nat) : Nat :=
  ((List.range 8).filter (fun i => n.testBit i)).length

/-- Modelled from the spec: the helper bit::get (src/bit.rs is not among
the sources); per the spec the sign flag equals bit 7 of the result, so
get x n is bit n of x. -/
def bit.get (x : Nat) (n : Nat) : Bool :=
  Nat.testBit x n

/-- The five condition bits, from flags.rs. -/
structure Flags where
  s : Bool
  z : Bool
  a : Bool
  p : Bool
  c : Bool
deriving DecidableEq

/-- Flags::new, from flags.rs. -/
def Flags.new : Flags :=
  { s := false, z := false, a := false, p := false, c := false }

/-- Flags::as_byte, from flags.rs: packs the condition bits, with bit 1
forced to 1. -/
def Flags.as_byte (f : Flags) : Nat :=
  let s := if f.s then 1 <<< 7 else 0
  let z := if f.z then 1 <<< 6 else 0
  let a := if f.a then 1 <<< 4 else 0
  let p := if f.p then 1 <<< 2 else 0
  let c := if f.c then 1 else 0
  s ||| z ||| a ||| p ||| c ||| 2

/-- Flags::from_byte, from flags.rs: restores the five bits from a byte,
ignoring bits 1, 3, 5. The receiver is fully overwritten. -/
def Flags.from_byte (_f : Flags) (bflags : Nat) : Flags :=
  { s := decide (bflags &&& 0x80 ≠ 0)
    z := decide (bflags &&& 0x40 ≠ 0)
    a := decide (bflags &&& 0x10 ≠ 0)
    p := decide (bflags &&& 0x04 ≠ 0)
    c := decide (bflags &&& 0x01 ≠ 0) }

/-- Modelled from the spec: the register file (src/register.rs is not
among the sources). Seven 8-bit registers; 16-bit views BC, DE, HL read
as high byte shifted left or-ed with low byte; a paired write stores the
high byte into the first-named register. Initial state all zero. -/
structure Registers where
  a : Nat
  b : Nat
  c : Nat
  d : Nat
  e : Nat
  h : Nat
  l : Nat

/-- Modelled from the spec: zero-initialised register file. -/
def Registers.new : Registers :=
  { a := 0, b := 0, c := 0, d := 0, e := 0, h := 0, l := 0 }

/-- Modelled from the spec: BC = (B shifted left 8) or C. -/
def Registers.get_bc (r : Registers) : Nat :=
  (r.b <<< 8) ||| r.c

/-- Modelled from the spec: paired write, high byte to B, low byte to C. -/
def Registers.set_bc (r : Registers) (v : Nat) : Registers :=
  { r with b := v >>> 8, c := v &&& 0xFF }

/-- Modelled from the spec: DE = (D shifted left 8) or E. -/
def Registers.get_de (r : Registers) : Nat :=
  (r.d <<< 8) ||| r.e

/-- Modelled from the spec: paired write, high byte to D, low byte to E. -/
def Registers.set_de (r : Registers) (v : Nat) : Registers :=
  { r with d := v >>> 8, e := v &&& 0xFF }

/-- Modelled from the spec: HL = (H shifted left 8) or L. -/
def Registers.get_hl (r : Registers) : Nat :=
  (r.h <<< 8) ||| r.l

/-- Modelled from the spec: paired write, high byte to H, low byte to L. -/
def Registers.set_hl (r : Registers) (v : Nat) : Registers :=
  { r with h := v >>> 8, l := v &&& 0xFF }

/-- The kind of the pending output operation, from memory.rs (enum named
after the source, with a neutral Lean name). -/
inductive IOKind where
  | OUT
  | CLR
deriving DecidableEq

/-- The pending output mailbox, from memory.rs (struct PendingIO in the
source). -/
structure PendingIOReq where
  kind : IOKind
  device : Nat
  value : Nat
deriving DecidableEq

/-- The read-only window, from memory.rs (field named end in the source,
renamed stop here because end is a Lean keyword). -/
structure ROMSpace where
  start : Nat
  stop : Nat

/-- The address bus, from memory.rs: 65,536 bytes of memory (indexed by a
16-bit address), the optional ROM window, the 256 input latches and the
output mailbox. -/
structure AddressBus where
  address_space : Nat → Nat
  rom_space : Option ROMSpace
  io_in : Nat → Nat
  pending_io : PendingIOReq

/-- Pointwise update of the memory function. -/
def upd (m : Nat → Nat) (a v : Nat) : Nat → Nat :=
  fun x => if x = a then v else m x

/-- AddressBus::new, from memory.rs. -/
def AddressBus.new : AddressBus :=
  { address_space := fun _ => 0
    rom_space := none
    io_in := fun _ => 0
    pending_io := { kind := IOKind.CLR, device := 0, value := 0 } }

/-- AddressBus::read_byte, from memory.rs. -/
def AddressBus.read_byte (bus : AddressBus) (address : Nat) : Nat :=
  bus.address_space address

/-- AddressBus::write_byte, from memory.rs: dropped when the address lies
inside the ROM window. -/
def AddressBus.write_byte (bus : AddressBus) (address data : Nat) : AddressBus :=
  match bus.rom_space with
  | some r =>
      if r.start ≤ address ∧ address ≤ r.stop then bus
      else { bus with address_space := upd bus.address_space address data }
  | none => { bus with address_space := upd bus.address_space address data }

/-- AddressBus::read_word, from memory.rs: little endian; the high-byte
address wraps modulo 2 to the 16 as the u16 addition does. -/
def AddressBus.read_word (bus : AddressBus) (address : Nat) : Nat :=
  bus.read_byte address ||| (bus.read_byte ((address + 1) % 65536) <<< 8)

/-- AddressBus::write_word, from memory.rs: the ROM-window test inspects
only the low address; both bytes are stored directly into the address
space when the test passes. -/
def AddressBus.write_word (bus : AddressBus) (address data : Nat) : AddressBus :=
  let written := upd (upd bus.address_space address (data &&& 0xFF)) ((address + 1) % 65536) (data >>> 8)
  match bus.rom_space with
  | some r =>
      if r.start ≤ address ∧ address ≤ r.stop then bus
      else { bus with address_space := written }
  | none => { bus with address_space := written }

/-- Outcome of AddressBus::load_bin, from memory.rs. Opening or reading
the file can fail with a std io error; the copy itself is a slice
assignment that panics when origin plus length exceeds the address space. -/
inductive LoadResult where
  | ioError
  | panicked
  | ok (bus : AddressBus)

/-- AddressBus::load_bin, from memory.rs. The file is abstracted as
none (the open or read failed) or some buffer of bytes. The slice
assignment copies the buffer verbatim at org and panics out of bounds
when org + length exceeds 65,536. -/
def AddressBus.load_bin (bus : AddressBus) (file : Option (List Nat)) (org : Nat) :
    LoadResult :=
  match file with
  | none => LoadResult.ioError
  | some buf =>
      if 65536 < org + buf.length then LoadResult.panicked
      else LoadResult.ok
        { bus with address_space := fun x =>
            if org ≤ x ∧ x < org + buf.length then buf.getD (x - org) 0
            else bus.address_space x }

/-- AddressBus::get_io_in, from memory.rs. -/
def AddressBus.get_io_in (bus : AddressBus) (device : Nat) : Nat :=
  bus.io_in device

/-- AddressBus::set_io_in, from memory.rs. -/
def AddressBus.set_io_in (bus : AddressBus) (device value : Nat) : AddressBus :=
  { bus with io_in := fun x => if x = device then value else bus.io_in x }

/-- AddressBus::set_io_out, from memory.rs: fills the mailbox. -/
def AddressBus.set_io_out (bus : AddressBus) (device value : Nat) : AddressBus :=
  { bus with pending_io := { kind := IOKind.OUT, device := device, value := value } }

/-- AddressBus::get_io_out, from memory.rs: returns the mailbox value when
it is active and addressed to the queried device. -/
def AddressBus.get_io_out (bus : AddressBus) (device : Nat) : Option Nat :=
  if bus.pending_io.kind = IOKind.OUT ∧ bus.pending_io.device = device then
    some bus.pending_io.value
  else none

/-- AddressBus::clear_io_out, from memory.rs. -/
def AddressBus.clear_io_out (bus : AddressBus) : AddressBus :=
  { bus with pending_io := { kind := IOKind.CLR, device := 0, value := 0 } }

/-- The CPU state, from lib.rs. The int field is the pending-interrupt
slot (armed flag, opcode byte). The debug and slice-timing fields of the
source are host-facing only and are not part of the machine state
modelled here; the two callback slots are passed to execute as
parameters. -/
structure CPU where
  registers : Registers
  flags : Flags
  pc : Nat
  sp : Nat
  bus : AddressBus
  halt : Bool
  int : Bool × Nat
  inte : Bool

/-- Signature of the host IN and OUT callbacks, from lib.rs: the callback
receives the CPU state, the device and a byte, may transform the state
and may return a byte. -/
def Callback : Type :=
  CPU → Nat → Nat → CPU × Option Nat

/-- CPU::new, from lib.rs. -/
def CPU.new : CPU :=
  { registers := Registers.new
    flags := Flags.new
    pc := 0
    sp := 0
    bus := AddressBus.new
    halt := false
    int := (false, 0)
    inte := false }

/-- CPU::inr, from lib.rs: increment helper; sets Z, S, P and the
auxiliary carry, leaves the carry flag alone, returns the new byte. -/
def CPU.inr (st : CPU) (n : Nat) : CPU × Nat :=
  let r := (n + 1) % 256
  ({ st with flags :=
      { st.flags with
        z := decide (r = 0)
        s := bit.get r 7
        p := decide (count_ones r &&& 0x01 = 0)
        a := decide ((n &&& 0x0f) + 0x01 > 0x0f) } }, r)

/-- CPU::dcr, from lib.rs: decrement helper; sets Z, S, P and the
auxiliary carry from the result, leaves the carry flag alone. -/
def CPU.dcr (st : CPU) (n : Nat) : CPU × Nat :=
  let r := (n + 255) % 256
  ({ st with flags :=
      { st.flags with
        z := decide (r = 0)
        s := bit.get r 7
        p := decide (count_ones r &&& 0x01 = 0)
        a := decide ((r &&& 0x0f) ≠ 0x0f) } }, r)

/-- CPU::add, from lib.rs. -/
def CPU.add (st : CPU) (n : Nat) : CPU :=
  let a := st.registers.a
  let r := (a + n) % 256
  { st with
    flags :=
      { z := decide (r = 0)
        s := bit.get r 7
        p := decide (count_ones r &&& 0x01 = 0)
        a := decide ((a &&& 0x0f) + (n &&& 0x0f) > 0x0f)
        c := decide (a + n > 0xff) }
    registers := { st.registers with a := r } }

/-- CPU::adc, from lib.rs. -/
def CPU.adc (st : CPU) (n : Nat) : CPU :=
  let c : Nat := if st.flags.c then 1 else 0
  let a := st.registers.a
  let r := (a + n + c) % 256
  { st with
    flags :=
      { z := decide (r = 0)
        s := bit.get r 7
        p := decide (count_ones r &&& 0x01 = 0)
        a := decide ((a &&& 0x0f) + (n &&& 0x0f) + c > 0x0f)
        c := decide (a + n + c > 0xff) }
    registers := { st.registers with a := r } }

/-- CPU::sub, from lib.rs. The auxiliary carry compares the nibbles as
the source does with i8 arithmetic (the operands fit, so plain integer
subtraction is exact). -/
def CPU.sub (st : CPU) (n : Nat) : CPU :=
  let a := st.registers.a
  let r := (a + 256 - n % 256) % 256
  { st with
    flags :=
      { z := decide (r = 0)
        s := bit.get r 7
        p := decide (count_ones r &&& 0x01 = 0)
        a := decide ((((a &&& 0x0f : Nat) : Int) - ((n &&& 0x0f : Nat) : Int)) ≥ 0)
        c := decide (a < n) }
    registers := { st.registers with a := r } }

/-- CPU::sbb, from lib.rs: the subtrahend is n plus the incoming carry,
wrapped to a byte before the wrapping subtraction, as in the source. -/
def CPU.sbb (st : CPU) (n : Nat) : CPU :=
  let c : Nat := if st.flags.c then 1 else 0
  let a := st.registers.a
  let r := (a + 256 - (n + c) % 256) % 256
  { st with
    flags :=
      { z := decide (r = 0)
        s := bit.get r 7
        p := decide (count_ones r &&& 0x01 = 0)
        a := decide ((((a &&& 0x0f : Nat) : Int) - ((n &&& 0x0f : Nat) : Int) - ((c : Nat) : Int)) ≥ 0)
        c := decide (a < n + c) }
    registers := { st.registers with a := r } }

/-- CPU::ana, from lib.rs: the auxiliary carry keeps the documented 8080
quirk, bit 3 of the OR of the operands. -/
def CPU.ana (st : CPU) (n : Nat) : CPU :=
  let r := st.registers.a &&& n
  { st with
    flags :=
      { z := decide (r = 0)
        s := bit.get r 7
        p := decide (count_ones r &&& 0x01 = 0)
        a := decide ((n ||| st.registers.a) &&& 0x08 ≠ 0)
        c := false }
    registers := { st.registers with a := r } }

/-- CPU::xra, from lib.rs. -/
def CPU.xra (st : CPU) (n : Nat) : CPU :=
  let a := st.registers.a
  let r := a ^^^ n
  { st with
    flags :=
      { z := decide (r = 0)
        s := bit.get r 7
        p := decide (count_ones r &&& 0x01 = 0)
        a := false
        c := false }
    registers := { st.registers with a := r } }

/-- CPU::ora, from lib.rs. -/
def CPU.ora (st : CPU) (n : Nat) : CPU :=
  let r := st.registers.a ||| n
  { st with
    flags :=
      { z := decide (r = 0)
        s := bit.get r 7
        p := decide (count_ones r &&& 0x01 = 0)
        a := false
        c := false }
    registers := { st.registers with a := r } }

/-- CPU::cmp, from lib.rs: subtract, then restore the accumulator. -/
def CPU.cmp (st : CPU) (n : Nat) : CPU :=
  let r := st.registers.a
  let st1 := st.sub n
  { st1 with registers := { st1.registers with a := r } }

/-- CPU::rlc, from lib.rs: rotate left, carry takes old bit 7. -/
def CPU.rlc (st : CPU) : CPU :=
  let c := bit.get st.registers.a 7
  { st with
    flags := { st.flags with c := c }
    registers := { st.registers with a := ((st.registers.a <<< 1) % 256) ||| (if c then 1 else 0) } }

/-- CPU::rrc, from lib.rs: rotate right, carry takes old bit 0. -/
def CPU.rrc (st : CPU) : CPU :=
  let c := bit.get st.registers.a 0
  { st with
    flags := { st.flags with c := c }
    registers := { st.registers with a := if c then 0x80 ||| (st.registers.a >>> 1) else st.registers.a >>> 1 } }

/-- CPU::ral, from lib.rs: nine-bit rotate left through carry. -/
def CPU.ral (st : CPU) : CPU :=
  let c := st.flags.c
  let cnew := bit.get st.registers.a 7
  { st with
    flags := { st.flags with c := cnew }
    registers := { st.registers with a := if c then ((st.registers.a <<< 1) % 256) ||| 0x01 else (st.registers.a <<< 1) % 256 } }

/-- CPU::rar, from lib.rs: nine-bit rotate right through carry. -/
def CPU.rar (st : CPU) : CPU :=
  let c := st.flags.c
  let cnew := bit.get st.registers.a 0
  { st with
    flags := { st.flags with c := cnew }
    registers := { st.registers with a := if c then (st.registers.a >>> 1) ||| 0x80 else st.registers.a >>> 1 } }

/-- CPU::dad, from lib.rs: 16-bit add into HL, only the carry updated. -/
def CPU.dad (st : CPU) (n : Nat) : CPU :=
  let h := st.registers.get_hl
  let r := (h + n) % 65536
  { st with
    registers := st.registers.set_hl r
    flags := { st.flags with c := decide (h + n > 0xffff) } }

/-- CPU::xchg, from lib.rs: swap DE and HL. -/
def CPU.xchg (st : CPU) : CPU :=
  { st with registers :=
      { st.registers with
        d := st.registers.h
        e := st.registers.l
        h := st.registers.d
        l := st.registers.e } }

/-- CPU::xthl, from lib.rs: swap the word at SP with HL. -/
def CPU.xthl (st : CPU) : CPU :=
  let pointed_by_sp := st.bus.read_word st.sp
  let hl := st.registers.get_hl
  { st with
    bus := st.bus.write_word st.sp hl
    registers := st.registers.set_hl pointed_by_sp }

/-- CPU::daa, from lib.rs: decimal adjust, built on the add helper as in
the source, with the carry restored per the decimal rule afterwards. -/
def CPU.daa (st : CPU) : CPU :=
  let lsb := st.registers.a &&& 0x0F
  let inc1 : Nat := if 9 < lsb ∨ st.flags.a then 0x06 else 0
  let msb := st.registers.a >>> 4
  let inc_a : Nat := if 9 < msb ∨ st.flags.c ∨ (9 ≤ msb ∧ 9 < lsb) then inc1 + 0x60 else inc1
  let c : Bool := if 9 < msb ∨ st.flags.c ∨ (9 ≤ msb ∧ 9 < lsb) then true else st.flags.c
  let st1 := st.add inc_a
  { st1 with flags :=
      { st1.flags with
        c := c
        z := decide (st1.registers.a = 0)
        s := bit.get st1.registers.a 7
        p := decide (count_ones st1.registers.a &&& 0x01 = 0) } }

/-- CPU::subroutine_stack_push, from lib.rs: pushes PC plus three. -/
def CPU.subroutine_stack_push (st : CPU) : CPU :=
  let sp := (st.sp + 65536 - 2) % 65536
  { st with sp := sp, bus := st.bus.write_word sp ((st.pc + 3) % 65536) }

/-- CPU::subroutine_stack_pop, from lib.rs. -/
def CPU.subroutine_stack_pop (st : CPU) : CPU :=
  { st with pc := st.bus.read_word st.sp, sp := (st.sp + 2) % 65536 }

/-- CPU::interrupt_stack_push, from lib.rs: pushes the bare PC. -/
def CPU.interrupt_stack_push (st : CPU) : CPU :=
  let sp := (st.sp + 65536 - 2) % 65536
  { st with sp := sp, bus := st.bus.write_word sp st.pc }

/-- The 256-entry base cycle table, from lib.rs. -/
def CYCLES : List Nat := [
  4, 10, 7, 5, 5, 5, 7, 4, 4, 10, 7, 5, 5, 5, 7, 4,
  4, 10, 7, 5, 5, 5, 7, 4, 4, 10, 7, 5, 5, 5, 7, 4,
  4, 10, 16, 5, 5, 5, 7, 4, 4, 10, 16, 5, 5, 5, 7, 4,
  4, 10, 13, 5, 10, 10, 10, 4, 4, 10, 13, 5, 5, 5, 7, 4,
  5, 5, 5, 5, 5, 5, 7, 5, 5, 5, 5, 5, 5, 5, 7, 5,
  5, 5, 5, 5, 5, 5, 7, 5, 5, 5, 5, 5, 5, 5, 7, 5,
  5, 5, 5, 5, 5, 5, 7, 5, 5, 5, 5, 5, 5, 5, 7, 5,
  7, 7, 7, 7, 7, 7, 7, 7, 5, 5, 5, 5, 5, 5, 7, 5,
  4, 4, 4, 4, 4, 4, 7, 4, 4, 4, 4, 4, 4, 4, 7, 4,
  4, 4, 4, 4, 4, 4, 7, 4, 4, 4, 4, 4, 4, 4, 7, 4,
  4, 4, 4, 4, 4, 4, 7, 4, 4, 4, 4, 4, 4, 4, 7, 4,
  4, 4, 4, 4, 4, 4, 7, 4, 4, 4, 4, 4, 4, 4, 7, 4,
  5, 10, 10, 10, 11, 11, 7, 11, 5, 10, 10, 10, 11, 17, 7, 11,
  5, 10, 10, 10, 11, 11, 7, 11, 5, 10, 10, 10, 11, 17, 7, 11,
  5, 10, 10, 18, 11, 11, 7, 11, 5, 5, 10, 5, 11, 17, 7, 11,
  5, 10, 10, 4, 11, 11, 7, 11, 5, 5, 10, 4, 11, 17, 7, 11]

set_option maxRecDepth 200000

/-- The instruction dispatch of CPU::execute, from lib.rs, laid out as
the dense 256-entry table that the match over the opcode byte denotes:
entry k of the concatenated table is the arm of opcode k, and opcodes
absent from the match are the identity arm (the default branch changes
nothing). The direct_rst flag and the running cycle count are threaded
exactly as in the source. The table is given in sixteen rows of
sixteen. -/
def op_table_row00 (inCb outCb : Option Callback) (direct_rst : Bool) : List (CPU → Nat → CPU × Nat) := [
  -- opcode 0x00
  fun st cycles =>
    (st, cycles),
  -- opcode 0x01
  fun st cycles =>
    ({ st with registers := st.registers.set_bc (st.bus.read_word ((st.pc + 1) % 65536)) }, cycles),
  -- opcode 0x02
  fun st cycles =>
    let addr := st.registers.get_bc
    ({ st with bus := st.bus.write_byte addr st.registers.a }, cycles),
  -- opcode 0x03
  fun st cycles =>
    ({ st with registers := st.registers.set_bc ((st.registers.get_bc + 1) % 65536) }, cycles),
  -- opcode 0x04
  fun st cycles =>
    let t := st.inr st.registers.b
    ({ t.1 with registers := { t.1.registers with b := t.2 } }, cycles),
  -- opcode 0x05
  fun st cycles =>
    let t := st.dcr st.registers.b
    ({ t.1 with registers := { t.1.registers with b := t.2 } }, cycles),
  -- opcode 0x06
  fun st cycles =>
    ({ st with registers := { st.registers with b := st.bus.read_byte ((st.pc + 1) % 65536) } }, cycles),
  -- opcode 0x07
  fun st cycles =>
    (st.rlc, cycles),
  -- opcode 0x08 (not in the match: default branch)
  fun st cycles => (st, cycles),
  -- opcode 0x09
  fun st cycles =>
    (st.dad st.registers.get_bc, cycles),
  -- opcode 0x0a
  fun st cycles =>
    let addr := st.registers.get_bc
    ({ st with registers := { st.registers with a := st.bus.read_byte addr } }, cycles),
  -- opcode 0x0b
  fun st cycles =>
    ({ st with registers := st.registers.set_bc ((st.registers.get_bc + 65535) % 65536) }, cycles),
  -- opcode 0x0c
  fun st cycles =>
    let t := st.inr st.registers.c
    ({ t.1 with registers := { t.1.registers with c := t.2 } }, cycles),
  -- opcode 0x0d
  fun st cycles =>
    let t := st.dcr st.registers.c
    ({ t.1 with registers := { t.1.registers with c := t.2 } }, cycles),
  -- opcode 0x0e
  fun st cycles =>
    ({ st with registers := { st.registers with c := st.bus.read_byte ((st.pc + 1) % 65536) } }, cycles),
  -- opcode 0x0f
  fun st cycles =>
    (st.rrc, cycles)
]

def op_table_row01 (inCb outCb : Option Callback) (direct_rst : Bool) : List (CPU → Nat → CPU × Nat) := [
  -- opcode 0x10 (not in the match: default branch)
  fun st cycles => (st, cycles),
  -- opcode 0x11
  fun st cycles =>
    ({ st with registers := st.registers.set_de (st.bus.read_word ((st.pc + 1) % 65536)) }, cycles),
  -- opcode 0x12
  fun st cycles =>
    let addr := st.registers.get_de
    ({ st with bus := st.bus.write_byte addr st.registers.a }, cycles),
  -- opcode 0x13
  fun st cycles =>
    ({ st with registers := st.registers.set_de ((st.registers.get_de + 1) % 65536) }, cycles),
  -- opcode 0x14
  fun st cycles =>
    let t := st.inr st.registers.d
    ({ t.1 with registers := { t.1.registers with d := t.2 } }, cycles),
  -- opcode 0x15
  fun st cycles =>
    let t := st.dcr st.registers.d
    ({ t.1 with registers := { t.1.registers with d := t.2 } }, cycles),
  -- opcode 0x16
  fun st cycles =>
    ({ st with registers := { st.registers with d := st.bus.read_byte ((st.pc + 1) % 65536) } }, cycles),
  -- opcode 0x17
  fun st cycles =>
    (st.ral, cycles),
  -- opcode 0x18 (not in the match: default branch)
  fun st cycles => (st, cycles),
  -- opcode 0x19
  fun st cycles =>
    (st.dad st.registers.get_de, cycles),
  -- opcode 0x1a
  fun st cycles =>
    let addr := st.registers.get_de
    ({ st with registers := { st.registers with a := st.bus.read_byte addr } }, cycles),
  -- opcode 0x1b
  fun st cycles =>
    ({ st with registers := st.registers.set_de ((st.registers.get_de + 65535) % 65536) }, cycles),
  -- opcode 0x1c
  fun st cycles =>
    let t := st.inr st.registers.e
    ({ t.1 with registers := { t.1.registers with e := t.2 } }, cycles),
  -- opcode 0x1d
  fun st cycles =>
    let t := st.dcr st.registers.e
    ({ t.1 with registers := { t.1.registers with e := t.2 } }, cycles),
  -- opcode 0x1e
  fun st cycles =>
    ({ st with registers := { st.registers with e := st.bus.read_byte ((st.pc + 1) % 65536) } }, cycles),
  -- opcode 0x1f
  fun st cycles =>
    (st.rar, cycles)
]

def op_table_row02 (inCb outCb : Option Callback) (direct_rst : Bool) : List (CPU → Nat → CPU × Nat) := [
  -- opcode 0x20 (not in the match: default branch)
  fun st cycles => (st, cycles),
  -- opcode 0x21
  fun st cycles =>
    ({ st with registers := st.registers.set_hl (st.bus.read_word ((st.pc + 1) % 65536)) }, cycles),
  -- opcode 0x22
  fun st cycles =>
    let d := st.registers.get_hl
    let addr := st.bus.read_word ((st.pc + 1) % 65536)
    ({ st with bus := st.bus.write_word addr d }, cycles),
  -- opcode 0x23
  fun st cycles =>
    ({ st with registers := st.registers.set_hl ((st.registers.get_hl + 1) % 65536) }, cycles),
  -- opcode 0x24
  fun st cycles =>
    let t := st.inr st.registers.h
    ({ t.1 with registers := { t.1.registers with h := t.2 } }, cycles),
  -- opcode 0x25
  fun st cycles =>
    let t := st.dcr st.registers.h
    ({ t.1 with registers := { t.1.registers with h := t.2 } }, cycles),
  -- opcode 0x26
  fun st cycles =>
    ({ st with registers := { st.registers with h := st.bus.read_byte ((st.pc + 1) % 65536) } }, cycles),
  -- opcode 0x27
  fun st cycles =>
    (st.daa, cycles),
  -- opcode 0x28 (not in the match: default branch)
  fun st cycles => (st, cycles),
  -- opcode 0x29
  fun st cycles =>
    (st.dad st.registers.get_hl, cycles),
  -- opcode 0x2a
  fun st cycles =>
    let addr := st.bus.read_word ((st.pc + 1) % 65536)
    let d := st.bus.read_word addr
    ({ st with registers := st.registers.set_hl d }, cycles),
  -- opcode 0x2b
  fun st cycles =>
    ({ st with registers := st.registers.set_hl ((st.registers.get_hl + 65535) % 65536) }, cycles),
  -- opcode 0x2c
  fun st cycles =>
    let t := st.inr st.registers.l
    ({ t.1 with registers := { t.1.registers with l := t.2 } }, cycles),
  -- opcode 0x2d
  fun st cycles =>
    let t := st.dcr st.registers.l
    ({ t.1 with registers := { t.1.registers with l := t.2 } }, cycles),
  -- opcode 0x2e
  fun st cycles =>
    ({ st with registers := { st.registers with l := st.bus.read_byte ((st.pc + 1) % 65536) } }, cycles),
  -- opcode 0x2f
  fun st cycles =>
    ({ st with registers := { st.registers with a := st.registers.a ^^^ 0xFF } }, cycles)
]

def op_table_row03 (inCb outCb : Option Callback) (direct_rst : Bool) : List (CPU → Nat → CPU × Nat) := [
  -- opcode 0x30 (not in the match: default branch)
  fun st cycles => (st, cycles),
  -- opcode 0x31
  fun st cycles =>
    ({ st with sp := st.bus.read_word ((st.pc + 1) % 65536) }, cycles),
  -- opcode 0x32
  fun st cycles =>
    let addr := st.bus.read_word ((st.pc + 1) % 65536)
    ({ st with bus := st.bus.write_byte addr st.registers.a }, cycles),
  -- opcode 0x33
  fun st cycles =>
    ({ st with sp := (st.sp + 1) % 65536 }, cycles),
  -- opcode 0x34
  fun st cycles =>
    let addr := st.registers.get_hl
    let t := st.inr (st.bus.read_byte addr)
    ({ t.1 with bus := t.1.bus.write_byte addr t.2 }, cycles),
  -- opcode 0x35
  fun st cycles =>
    let addr := st.registers.get_hl
    let t := st.dcr (st.bus.read_byte addr)
    ({ t.1 with bus := t.1.bus.write_byte addr t.2 }, cycles),
  -- opcode 0x36
  fun st cycles =>
    let d8 := st.bus.read_byte ((st.pc + 1) % 65536)
    let addr := st.registers.get_hl
    ({ st with bus := st.bus.write_byte addr d8 }, cycles),
  -- opcode 0x37
  fun st cycles =>
    ({ st with flags := { st.flags with c := true } }, cycles),
  -- opcode 0x38 (not in the match: default branch)
  fun st cycles => (st, cycles),
  -- opcode 0x39
  fun st cycles =>
    (st.dad st.sp, cycles),
  -- opcode 0x3a
  fun st cycles =>
    let addr := st.bus.read_word ((st.pc + 1) % 65536)
    ({ st with registers := { st.registers with a := st.bus.read_byte addr } }, cycles),
  -- opcode 0x3b
  fun st cycles =>
    ({ st with sp := (st.sp + 65535) % 65536 }, cycles),
  -- opcode 0x3c
  fun st cycles =>
    let t := st.inr st.registers.a
    ({ t.1 with registers := { t.1.registers with a := t.2 } }, cycles),
  -- opcode 0x3d
  fun st cycles =>
    let t := st.dcr st.registers.a
    ({ t.1 with registers := { t.1.registers with a := t.2 } }, cycles),
  -- opcode 0x3e
  fun st cycles =>
    ({ st with registers := { st.registers with a := st.bus.read_byte ((st.pc + 1) % 65536) } }, cycles),
  -- opcode 0x3f
  fun st cycles =>
    ({ st with flags := { st.flags with c := !st.flags.c } }, cycles)
]

def op_table_row04 (inCb outCb : Option Callback) (direct_rst : Bool) : List (CPU → Nat → CPU × Nat) := [
  -- opcode 0x40
  fun st cycles =>
    (st, cycles),
  -- opcode 0x41
  fun st cycles =>
    ({ st with registers := { st.registers with b := st.registers.c } }, cycles),
  -- opcode 0x42
  fun st cycles =>
    ({ st with registers := { st.registers with b := st.registers.d } }, cycles),
  -- opcode 0x43
  fun st cycles =>
    ({ st with registers := { st.registers with b := st.registers.e } }, cycles),
  -- opcode 0x44
  fun st cycles =>
    ({ st with registers := { st.registers with b := st.registers.h } }, cycles),
  -- opcode 0x45
  fun st cycles =>
    ({ st with registers := { st.registers with b := st.registers.l } }, cycles),
  -- opcode 0x46
  fun st cycles =>
    let addr := st.registers.get_hl
    ({ st with registers := { st.registers with b := st.bus.read_byte addr } }, cycles),
  -- opcode 0x47
  fun st cycles =>
    ({ st with registers := { st.registers with b := st.registers.a } }, cycles),
  -- opcode 0x48
  fun st cycles =>
    ({ st with registers := { st.registers with c := st.registers.b } }, cycles),
  -- opcode 0x49
  fun st cycles =>
    (st, cycles),
  -- opcode 0x4a
  fun st cycles =>
    ({ st with registers := { st.registers with c := st.registers.d } }, cycles),
  -- opcode 0x4b
  fun st cycles =>
    ({ st with registers := { st.registers with c := st.registers.e } }, cycles),
  -- opcode 0x4c
  fun st cycles =>
    ({ st with registers := { st.registers with c := st.registers.h } }, cycles),
  -- opcode 0x4d
  fun st cycles =>
    ({ st with registers := { st.registers with c := st.registers.l } }, cycles),
  -- opcode 0x4e
  fun st cycles =>
    let addr := st.registers.get_hl
    ({ st with registers := { st.registers with c := st.bus.read_byte addr } }, cycles),
  -- opcode 0x4f
  fun st cycles =>
    ({ st with registers := { st.registers with c := st.registers.a } }, cycles)
]

def op_table_row05 (inCb outCb : Option Callback) (direct_rst : Bool) : List (CPU → Nat → CPU × Nat) := [
  -- opcode 0x50
  fun st cycles =>
    ({ st with registers := { st.registers with d := st.registers.b } }, cycles),
  -- opcode 0x51
  fun st cycles =>
    ({ st with registers := { st.registers with d := st.registers.c } }, cycles),
  -- opcode 0x52
  fun st cycles =>
    (st, cycles),
  -- opcode 0x53
  fun st cycles =>
    ({ st with registers := { st.registers with d := st.registers.e } }, cycles),
  -- opcode 0x54
  fun st cycles =>
    ({ st with registers := { st.registers with d := st.registers.h } }, cycles),
  -- opcode 0x55
  fun st cycles =>
    ({ st with registers := { st.registers with d := st.registers.l } }, cycles),
  -- opcode 0x56
  fun st cycles =>
    let addr := st.registers.get_hl
    ({ st with registers := { st.registers with d := st.bus.read_byte addr } }, cycles),
  -- opcode 0x57
  fun st cycles =>
    ({ st with registers := { st.registers with d := st.registers.a } }, cycles),
  -- opcode 0x58
  fun st cycles =>
    ({ st with registers := { st.registers with e := st.registers.b } }, cycles),
  -- opcode 0x59
  fun st cycles =>
    ({ st with registers := { st.registers with e := st.registers.c } }, cycles),
  -- opcode 0x5a
  fun st cycles =>
    ({ st with registers := { st.registers with e := st.registers.d } }, cycles),
  -- opcode 0x5b
  fun st cycles =>
    (st, cycles),
  -- opcode 0x5c
  fun st cycles =>
    ({ st with registers := { st.registers with e := st.registers.h } }, cycles),
  -- opcode 0x5d
  fun st cycles =>
    ({ st with registers := { st.registers with e := st.registers.l } }, cycles),
  -- opcode 0x5e
  fun st cycles =>
    let addr := st.registers.get_hl
    ({ st with registers := { st.registers with e := st.bus.read_byte addr } }, cycles),
  -- opcode 0x5f
  fun st cycles =>
    ({ st with registers := { st.registers with e := st.registers.a } }, cycles)
]

def op_table_row06 (inCb outCb : Option Callback) (direct_rst : Bool) : List (CPU → Nat → CPU × Nat) := [
  -- opcode 0x60
  fun st cycles =>
    ({ st with registers := { st.registers with h := st.registers.b } }, cycles),
  -- opcode 0x61
  fun st cycles =>
    ({ st with registers := { st.registers with h := st.registers.c } }, cycles),
  -- opcode 0x62
  fun st cycles =>
    ({ st with registers := { st.registers with h := st.registers.d } }, cycles),
  -- opcode 0x63
  fun st cycles =>
    ({ st with registers := { st.registers with h := st.registers.e } }, cycles),
  -- opcode 0x64
  fun st cycles =>
    (st, cycles),
  -- opcode 0x65
  fun st cycles =>
    ({ st with registers := { st.registers with h := st.registers.l } }, cycles),
  -- opcode 0x66
  fun st cycles =>
    let addr := st.registers.get_hl
    ({ st with registers := { st.registers with h := st.bus.read_byte addr } }, cycles),
  -- opcode 0x67
  fun st cycles =>
    ({ st with registers := { st.registers with h := st.registers.a } }, cycles),
  -- opcode 0x68
  fun st cycles =>
    ({ st with registers := { st.registers with l := st.registers.b } }, cycles),
  -- opcode 0x69
  fun st cycles =>
    ({ st with registers := { st.registers with l := st.registers.c } }, cycles),
  -- opcode 0x6a
  fun st cycles =>
    ({ st with registers := { st.registers with l := st.registers.d } }, cycles),
  -- opcode 0x6b
  fun st cycles =>
    ({ st with registers := { st.registers with l := st.registers.e } }, cycles),
  -- opcode 0x6c
  fun st cycles =>
    ({ st with registers := { st.registers with l := st.registers.h } }, cycles),
  -- opcode 0x6d
  fun st cycles =>
    (st, cycles),
  -- opcode 0x6e
  fun st cycles =>
    let addr := st.registers.get_hl
    ({ st with registers := { st.registers with l := st.bus.read_byte addr } }, cycles),
  -- opcode 0x6f
  fun st cycles =>
    ({ st with registers := { st.registers with l := st.registers.a } }, cycles)
]

def op_table_row07 (inCb outCb : Option Callback) (direct_rst : Bool) : List (CPU → Nat → CPU × Nat) := [
  -- opcode 0x70
  fun st cycles =>
    let addr := st.registers.get_hl
    ({ st with bus := st.bus.write_byte addr st.registers.b }, cycles),
  -- opcode 0x71
  fun st cycles =>
    let addr := st.registers.get_hl
    ({ st with bus := st.bus.write_byte addr st.registers.c }, cycles),
  -- opcode 0x72
  fun st cycles =>
    let addr := st.registers.get_hl
    ({ st with bus := st.bus.write_byte addr st.registers.d }, cycles),
  -- opcode 0x73
  fun st cycles =>
    let addr := st.registers.get_hl
    ({ st with bus := st.bus.write_byte addr st.registers.e }, cycles),
  -- opcode 0x74
  fun st cycles =>
    let addr := st.registers.get_hl
    ({ st with bus := st.bus.write_byte addr st.registers.h }, cycles),
  -- opcode 0x75
  fun st cycles =>
    let addr := st.registers.get_hl
    ({ st with bus := st.bus.write_byte addr st.registers.l }, cycles),
  -- opcode 0x76
  fun st cycles =>
    ({ st with halt := true }, cycles),
  -- opcode 0x77
  fun st cycles =>
    let addr := st.registers.get_hl
    ({ st with bus := st.bus.write_byte addr st.registers.a }, cycles),
  -- opcode 0x78
  fun st cycles =>
    ({ st with registers := { st.registers with a := st.registers.b } }, cycles),
  -- opcode 0x79
  fun st cycles =>
    ({ st with registers := { st.registers with a := st.registers.c } }, cycles),
  -- opcode 0x7a
  fun st cycles =>
    ({ st with registers := { st.registers with a := st.registers.d } }, cycles),
  -- opcode 0x7b
  fun st cycles =>
    ({ st with registers := { st.registers with a := st.registers.e } }, cycles),
  -- opcode 0x7c
  fun st cycles =>
    ({ st with registers := { st.registers with a := st.registers.h } }, cycles),
  -- opcode 0x7d
  fun st cycles =>
    ({ st with registers := { st.registers with a := st.registers.l } }, cycles),
  -- opcode 0x7e
  fun st cycles =>
    let addr := st.registers.get_hl
    ({ st with registers := { st.registers with a := st.bus.read_byte addr } }, cycles),
  -- opcode 0x7f
  fun st cycles =>
    (st, cycles)
]

def op_table_row08 (inCb outCb : Option Callback) (direct_rst : Bool) : List (CPU → Nat → CPU × Nat) := [
  -- opcode 0x80
  fun st cycles =>
    (st.add st.registers.b, cycles),
  -- opcode 0x81
  fun st cycles =>
    (st.add st.registers.c, cycles),
  -- opcode 0x82
  fun st cycles =>
    (st.add st.registers.d, cycles),
  -- opcode 0x83
  fun st cycles =>
    (st.add st.registers.e, cycles),
  -- opcode 0x84
  fun st cycles =>
    (st.add st.registers.h, cycles),
  -- opcode 0x85
  fun st cycles =>
    (st.add st.registers.l, cycles),
  -- opcode 0x86
  fun st cycles =>
    let addr := st.registers.get_hl
    let n := st.bus.read_byte addr
    (st.add n, cycles),
  -- opcode 0x87
  fun st cycles =>
    (st.add st.registers.a, cycles),
  -- opcode 0x88
  fun st cycles =>
    (st.adc st.registers.b, cycles),
  -- opcode 0x89
  fun st cycles =>
    (st.adc st.registers.c, cycles),
  -- opcode 0x8a
  fun st cycles =>
    (st.adc st.registers.d, cycles),
  -- opcode 0x8b
  fun st cycles =>
    (st.adc st.registers.e, cycles),
  -- opcode 0x8c
  fun st cycles =>
    (st.adc st.registers.h, cycles),
  -- opcode 0x8d
  fun st cycles =>
    (st.adc st.registers.l, cycles),
  -- opcode 0x8e
  fun st cycles =>
    let addr := st.registers.get_hl
    let n := st.bus.read_byte addr
    (st.adc n, cycles),
  -- opcode 0x8f
  fun st cycles =>
    (st.adc st.registers.a, cycles)
]

def op_table_row09 (inCb outCb : Option Callback) (direct_rst : Bool) : List (CPU → Nat → CPU × Nat) := [
  -- opcode 0x90
  fun st cycles =>
    (st.sub st.registers.b, cycles),
  -- opcode 0x91
  fun st cycles =>
    (st.sub st.registers.c, cycles),
  -- opcode 0x92
  fun st cycles =>
    (st.sub st.registers.d, cycles),
  -- opcode 0x93
  fun st cycles =>
    (st.sub st.registers.e, cycles),
  -- opcode 0x94
  fun st cycles =>
    (st.sub st.registers.h, cycles),
  -- opcode 0x95
  fun st cycles =>
    (st.sub st.registers.l, cycles),
  -- opcode 0x96
  fun st cycles =>
    let addr := st.registers.get_hl
    let n := st.bus.read_byte addr
    (st.sub n, cycles),
  -- opcode 0x97
  fun st cycles =>
    (st.sub st.registers.a, cycles),
  -- opcode 0x98
  fun st cycles =>
    (st.sbb st.registers.b, cycles),
  -- opcode 0x99
  fun st cycles =>
    (st.sbb st.registers.c, cycles),
  -- opcode 0x9a
  fun st cycles =>
    (st.sbb st.registers.d, cycles),
  -- opcode 0x9b
  fun st cycles =>
    (st.sbb st.registers.e, cycles),
  -- opcode 0x9c
  fun st cycles =>
    (st.sbb st.registers.h, cycles),
  -- opcode 0x9d
  fun st cycles =>
    (st.sbb st.registers.l, cycles),
  -- opcode 0x9e
  fun st cycles =>
    let addr := st.registers.get_hl
    let n := st.bus.read_byte addr
    (st.sbb n, cycles),
  -- opcode 0x9f
  fun st cycles =>
    (st.sbb st.registers.a, cycles)
]

def op_table_row0a (inCb outCb : Option Callback) (direct_rst : Bool) : List (CPU → Nat → CPU × Nat) := [
  -- opcode 0xa0
  fun st cycles =>
    (st.ana st.registers.b, cycles),
  -- opcode 0xa1
  fun st cycles =>
    (st.ana st.registers.c, cycles),
  -- opcode 0xa2
  fun st cycles =>
    (st.ana st.registers.d, cycles),
  -- opcode 0xa3
  fun st cycles =>
    (st.ana st.registers.e, cycles),
  -- opcode 0xa4
  fun st cycles =>
    (st.ana st.registers.h, cycles),
  -- opcode 0xa5
  fun st cycles =>
    (st.ana st.registers.l, cycles),
  -- opcode 0xa6
  fun st cycles =>
    let addr := st.registers.get_hl
    let n := st.bus.read_byte addr
    (st.ana n, cycles),
  -- opcode 0xa7
  fun st cycles =>
    (st.ana st.registers.a, cycles),
  -- opcode 0xa8
  fun st cycles =>
    (st.xra st.registers.b, cycles),
  -- opcode 0xa9
  fun st cycles =>
    (st.xra st.registers.c, cycles),
  -- opcode 0xaa
  fun st cycles =>
    (st.xra st.registers.d, cycles),
  -- opcode 0xab
  fun st cycles =>
    (st.xra st.registers.e, cycles),
  -- opcode 0xac
  fun st cycles =>
    (st.xra st.registers.h, cycles),
  -- opcode 0xad
  fun st cycles =>
    (st.xra st.registers.l, cycles),
  -- opcode 0xae
  fun st cycles =>
    let addr := st.registers.get_hl
    let n := st.bus.read_byte addr
    (st.xra n, cycles),
  -- opcode 0xaf
  fun st cycles =>
    (st.xra st.registers.a, cycles)
]

def op_table_row0b (inCb outCb : Option Callback) (direct_rst : Bool) : List (CPU → Nat → CPU × Nat) := [
  -- opcode 0xb0
  fun st cycles =>
    (st.ora st.registers.b, cycles),
  -- opcode 0xb1
  fun st cycles =>
    (st.ora st.registers.c, cycles),
  -- opcode 0xb2
  fun st cycles =>
    (st.ora st.registers.d, cycles),
  -- opcode 0xb3
  fun st cycles =>
    (st.ora st.registers.e, cycles),
  -- opcode 0xb4
  fun st cycles =>
    (st.ora st.registers.h, cycles),
  -- opcode 0xb5
  fun st cycles =>
    (st.ora st.registers.l, cycles),
  -- opcode 0xb6
  fun st cycles =>
    let addr := st.registers.get_hl
    let n := st.bus.read_byte addr
    (st.ora n, cycles),
  -- opcode 0xb7
  fun st cycles =>
    (st.ora st.registers.a, cycles),
  -- opcode 0xb8
  fun st cycles =>
    (st.cmp st.registers.b, cycles),
  -- opcode 0xb9
  fun st cycles =>
    (st.cmp st.registers.c, cycles),
  -- opcode 0xba
  fun st cycles =>
    (st.cmp st.registers.d, cycles),
  -- opcode 0xbb
  fun st cycles =>
    (st.cmp st.registers.e, cycles),
  -- opcode 0xbc
  fun st cycles =>
    (st.cmp st.registers.h, cycles),
  -- opcode 0xbd
  fun st cycles =>
    (st.cmp st.registers.l, cycles),
  -- opcode 0xbe
  fun st cycles =>
    let addr := st.registers.get_hl
    let n := st.bus.read_byte addr
    (st.cmp n, cycles),
  -- opcode 0xbf
  fun st cycles =>
    (st.cmp st.registers.a, cycles)
]

def op_table_row0c (inCb outCb : Option Callback) (direct_rst : Bool) : List (CPU → Nat → CPU × Nat) := [
  -- opcode 0xc0
  fun st cycles =>
    if !st.flags.z then (st.subroutine_stack_pop, cycles + 6) else ({ st with pc := (st.pc + 1) % 65536 }, cycles),
  -- opcode 0xc1
  fun st cycles =>
    ({ st with registers := st.registers.set_bc (st.bus.read_word st.sp), sp := (st.sp + 2) % 65536 }, cycles),
  -- opcode 0xc2
  fun st cycles =>
    let addr := st.bus.read_word ((st.pc + 1) % 65536)
    if !st.flags.z then ({ st with pc := addr }, cycles) else ({ st with pc := (st.pc + 3) % 65536 }, cycles),
  -- opcode 0xc3
  fun st cycles =>
    ({ st with pc := st.bus.read_word ((st.pc + 1) % 65536) }, cycles),
  -- opcode 0xc4
  fun st cycles =>
    let addr := st.bus.read_word ((st.pc + 1) % 65536)
    if !st.flags.z then ({ st.subroutine_stack_push with pc := addr }, cycles + 6) else ({ st with pc := (st.pc + 3) % 65536 }, cycles),
  -- opcode 0xc5
  fun st cycles =>
    let sp := (st.sp + 65536 - 2) % 65536
    ({ st with sp := sp, bus := st.bus.write_word sp st.registers.get_bc }, cycles),
  -- opcode 0xc6
  fun st cycles =>
    let n := st.bus.read_byte ((st.pc + 1) % 65536)
    (st.add n, cycles),
  -- opcode 0xc7
  fun st cycles =>
    let st1 := match direct_rst with
      | false => st.interrupt_stack_push
      | true => ({ st with pc := (st.pc + 1) % 65536 }).interrupt_stack_push
    ({ st1 with pc := 0 }, cycles),
  -- opcode 0xc8
  fun st cycles =>
    if st.flags.z then (st.subroutine_stack_pop, cycles + 6) else ({ st with pc := (st.pc + 1) % 65536 }, cycles),
  -- opcode 0xc9
  fun st cycles =>
    (st.subroutine_stack_pop, cycles),
  -- opcode 0xca
  fun st cycles =>
    let addr := st.bus.read_word ((st.pc + 1) % 65536)
    if st.flags.z then ({ st with pc := addr }, cycles) else ({ st with pc := (st.pc + 3) % 65536 }, cycles),
  -- opcode 0xcb (not in the match: default branch)
  fun st cycles => (st, cycles),
  -- opcode 0xcc
  fun st cycles =>
    let addr := st.bus.read_word ((st.pc + 1) % 65536)
    if st.flags.z then ({ st.subroutine_stack_push with pc := addr }, cycles + 6) else ({ st with pc := (st.pc + 3) % 65536 }, cycles),
  -- opcode 0xcd
  fun st cycles =>
    let addr := st.bus.read_word ((st.pc + 1) % 65536)
    ({ st.subroutine_stack_push with pc := addr }, cycles),
  -- opcode 0xce
  fun st cycles =>
    let n := st.bus.read_byte ((st.pc + 1) % 65536)
    (st.adc n, cycles),
  -- opcode 0xcf
  fun st cycles =>
    let st1 := match direct_rst with
      | false => st.interrupt_stack_push
      | true => ({ st with pc := (st.pc + 1) % 65536 }).interrupt_stack_push
    ({ st1 with pc := 8 }, cycles)
]

def op_table_row0d (inCb outCb : Option Callback) (direct_rst : Bool) : List (CPU → Nat → CPU × Nat) := [
  -- opcode 0xd0
  fun st cycles =>
    if !st.flags.c then (st.subroutine_stack_pop, cycles + 6) else ({ st with pc := (st.pc + 1) % 65536 }, cycles),
  -- opcode 0xd1
  fun st cycles =>
    ({ st with registers := st.registers.set_de (st.bus.read_word st.sp), sp := (st.sp + 2) % 65536 }, cycles),
  -- opcode 0xd2
  fun st cycles =>
    let addr := st.bus.read_word ((st.pc + 1) % 65536)
    if !st.flags.c then ({ st with pc := addr }, cycles) else ({ st with pc := (st.pc + 3) % 65536 }, cycles),
  -- opcode 0xd3
  fun st cycles =>
    let device := st.bus.read_byte ((st.pc + 1) % 65536)
    match outCb with
    | none => ({ st with bus := st.bus.set_io_out device st.registers.a }, cycles)
    | some cb => ((cb st device st.registers.a).1, cycles),
  -- opcode 0xd4
  fun st cycles =>
    let addr := st.bus.read_word ((st.pc + 1) % 65536)
    if !st.flags.c then ({ st.subroutine_stack_push with pc := addr }, cycles + 6) else ({ st with pc := (st.pc + 3) % 65536 }, cycles),
  -- opcode 0xd5
  fun st cycles =>
    let sp := (st.sp + 65536 - 2) % 65536
    ({ st with sp := sp, bus := st.bus.write_word sp st.registers.get_de }, cycles),
  -- opcode 0xd6
  fun st cycles =>
    let n := st.bus.read_byte ((st.pc + 1) % 65536)
    (st.sub n, cycles),
  -- opcode 0xd7
  fun st cycles =>
    let st1 := match direct_rst with
      | false => st.interrupt_stack_push
      | true => ({ st with pc := (st.pc + 1) % 65536 }).interrupt_stack_push
    ({ st1 with pc := 16 }, cycles),
  -- opcode 0xd8
  fun st cycles =>
    if st.flags.c then (st.subroutine_stack_pop, cycles + 6) else ({ st with pc := (st.pc + 1) % 65536 }, cycles),
  -- opcode 0xd9 (not in the match: default branch)
  fun st cycles => (st, cycles),
  -- opcode 0xda
  fun st cycles =>
    let addr := st.bus.read_word ((st.pc + 1) % 65536)
    if st.flags.c then ({ st with pc := addr }, cycles) else ({ st with pc := (st.pc + 3) % 65536 }, cycles),
  -- opcode 0xdb
  fun st cycles =>
    let device := st.bus.read_byte ((st.pc + 1) % 65536)
    match inCb with
    | none => ({ st with registers := { st.registers with a := st.bus.get_io_in device } }, cycles)
    | some cb =>
      let t := cb st device 0
      match t.2 with
      | some a => ({ t.1 with registers := { t.1.registers with a := a } }, cycles)
      | none => (t.1, cycles),
  -- opcode 0xdc
  fun st cycles =>
    let addr := st.bus.read_word ((st.pc + 1) % 65536)
    if st.flags.c then ({ st.subroutine_stack_push with pc := addr }, cycles) else ({ st with pc := (st.pc + 3) % 65536 }, cycles),
  -- opcode 0xdd (not in the match: default branch)
  fun st cycles => (st, cycles),
  -- opcode 0xde
  fun st cycles =>
    let n := st.bus.read_byte ((st.pc + 1) % 65536)
    (st.sbb n, cycles),
  -- opcode 0xdf
  fun st cycles =>
    let st1 := match direct_rst with
      | false => st.interrupt_stack_push
      | true => ({ st with pc := (st.pc + 1) % 65536 }).interrupt_stack_push
    ({ st1 with pc := 24 }, cycles)
]

def op_table_row0e (inCb outCb : Option Callback) (direct_rst : Bool) : List (CPU → Nat → CPU × Nat) := [
  -- opcode 0xe0
  fun st cycles =>
    if !st.flags.p then (st.subroutine_stack_pop, cycles + 6) else ({ st with pc := (st.pc + 1) % 65536 }, cycles),
  -- opcode 0xe1
  fun st cycles =>
    ({ st with registers := st.registers.set_hl (st.bus.read_word st.sp), sp := (st.sp + 2) % 65536 }, cycles),
  -- opcode 0xe2
  fun st cycles =>
    let addr := st.bus.read_word ((st.pc + 1) % 65536)
    if !st.flags.p then ({ st with pc := addr }, cycles) else ({ st with pc := (st.pc + 3) % 65536 }, cycles),
  -- opcode 0xe3
  fun st cycles =>
    (st.xthl, cycles),
  -- opcode 0xe4
  fun st cycles =>
    let addr := st.bus.read_word ((st.pc + 1) % 65536)
    if !st.flags.p then ({ st.subroutine_stack_push with pc := addr }, cycles + 6) else ({ st with pc := (st.pc + 3) % 65536 }, cycles),
  -- opcode 0xe5
  fun st cycles =>
    let sp := (st.sp + 65536 - 2) % 65536
    ({ st with sp := sp, bus := st.bus.write_word sp st.registers.get_hl }, cycles),
  -- opcode 0xe6
  fun st cycles =>
    let n := st.bus.read_byte ((st.pc + 1) % 65536)
    (st.ana n, cycles),
  -- opcode 0xe7
  fun st cycles =>
    let st1 := match direct_rst with
      | false => st.interrupt_stack_push
      | true => ({ st with pc := (st.pc + 1) % 65536 }).interrupt_stack_push
    ({ st1 with pc := 32 }, cycles),
  -- opcode 0xe8
  fun st cycles =>
    if st.flags.p then (st.subroutine_stack_pop, cycles + 6) else ({ st with pc := (st.pc + 1) % 65536 }, cycles),
  -- opcode 0xe9
  fun st cycles =>
    ({ st with pc := st.registers.get_hl }, cycles),
  -- opcode 0xea
  fun st cycles =>
    let addr := st.bus.read_word ((st.pc + 1) % 65536)
    if st.flags.p then ({ st with pc := addr }, cycles) else ({ st with pc := (st.pc + 3) % 65536 }, cycles),
  -- opcode 0xeb
  fun st cycles =>
    (st.xchg, cycles),
  -- opcode 0xec
  fun st cycles =>
    let addr := st.bus.read_word ((st.pc + 1) % 65536)
    if st.flags.p then ({ st.subroutine_stack_push with pc := addr }, cycles + 6) else ({ st with pc := (st.pc + 3) % 65536 }, cycles),
  -- opcode 0xed (not in the match: default branch)
  fun st cycles => (st, cycles),
  -- opcode 0xee
  fun st cycles =>
    let n := st.bus.read_byte ((st.pc + 1) % 65536)
    (st.xra n, cycles),
  -- opcode 0xef
  fun st cycles =>
    let st1 := match direct_rst with
      | false => st.interrupt_stack_push
      | true => ({ st with pc := (st.pc + 1) % 65536 }).interrupt_stack_push
    ({ st1 with pc := 40 }, cycles)
]

def op_table_row0f (inCb outCb : Option Callback) (direct_rst : Bool) : List (CPU → Nat → CPU × Nat) := [
  -- opcode 0xf0
  fun st cycles =>
    if !st.flags.s then (st.subroutine_stack_pop, cycles + 6) else ({ st with pc := (st.pc + 1) % 65536 }, cycles),
  -- opcode 0xf1
  fun st cycles =>
    ({ st with registers := { st.registers with a := st.bus.read_byte ((st.sp + 1) % 65536) }, flags := st.flags.from_byte (st.bus.read_byte st.sp), sp := (st.sp + 2) % 65536 }, cycles),
  -- opcode 0xf2
  fun st cycles =>
    let addr := st.bus.read_word ((st.pc + 1) % 65536)
    if !st.flags.s then ({ st with pc := addr }, cycles) else ({ st with pc := (st.pc + 3) % 65536 }, cycles),
  -- opcode 0xf3
  fun st cycles =>
    ({ st with inte := false }, cycles),
  -- opcode 0xf4
  fun st cycles =>
    let addr := st.bus.read_word ((st.pc + 1) % 65536)
    if !st.flags.s then ({ st.subroutine_stack_push with pc := addr }, cycles + 6) else ({ st with pc := (st.pc + 3) % 65536 }, cycles),
  -- opcode 0xf5
  fun st cycles =>
    let sp := (st.sp + 65536 - 2) % 65536
    ({ st with sp := sp, bus := (st.bus.write_byte sp st.flags.as_byte).write_byte ((sp + 1) % 65536) st.registers.a }, cycles),
  -- opcode 0xf6
  fun st cycles =>
    let n := st.bus.read_byte ((st.pc + 1) % 65536)
    (st.ora n, cycles),
  -- opcode 0xf7
  fun st cycles =>
    let st1 := match direct_rst with
      | false => st.interrupt_stack_push
      | true => ({ st with pc := (st.pc + 1) % 65536 }).interrupt_stack_push
    ({ st1 with pc := 48 }, cycles),
  -- opcode 0xf8
  fun st cycles =>
    if st.flags.s then (st.subroutine_stack_pop, cycles + 6) else ({ st with pc := (st.pc + 1) % 65536 }, cycles),
  -- opcode 0xf9
  fun st cycles =>
    ({ st with sp := st.registers.get_hl }, cycles),
  -- opcode 0xfa
  fun st cycles =>
    let addr := st.bus.read_word ((st.pc + 1) % 65536)
    if st.flags.s then ({ st with pc := addr }, cycles) else ({ st with pc := (st.pc + 3) % 65536 }, cycles),
  -- opcode 0xfb
  fun st cycles =>
    ({ st with inte := true }, cycles),
  -- opcode 0xfc
  fun st cycles =>
    let addr := st.bus.read_word ((st.pc + 1) % 65536)
    if st.flags.s then ({ st.subroutine_stack_push with pc := addr }, cycles + 6) else ({ st with pc := (st.pc + 3) % 65536 }, cycles),
  -- opcode 0xfd (not in the match: default branch)
  fun st cycles => (st, cycles),
  -- opcode 0xfe
  fun st cycles =>
    let n := st.bus.read_byte ((st.pc + 1) % 65536)
    (st.cmp n, cycles),
  -- opcode 0xff
  fun st cycles =>
    let st1 := match direct_rst with
      | false => st.interrupt_stack_push
      | true => ({ st with pc := (st.pc + 1) % 65536 }).interrupt_stack_push
    ({ st1 with pc := 56 }, cycles)
]

/-- The full 256-entry dispatch table, rows concatenated in order. -/
def op_table (inCb outCb : Option Callback) (direct_rst : Bool) : List (CPU → Nat → CPU × Nat) :=
  op_table_row00 inCb outCb direct_rst ++
  op_table_row01 inCb outCb direct_rst ++
  op_table_row02 inCb outCb direct_rst ++
  op_table_row03 inCb outCb direct_rst ++
  op_table_row04 inCb outCb direct_rst ++
  op_table_row05 inCb outCb direct_rst ++
  op_table_row06 inCb outCb direct_rst ++
  op_table_row07 inCb outCb direct_rst ++
  op_table_row08 inCb outCb direct_rst ++
  op_table_row09 inCb outCb direct_rst ++
  op_table_row0a inCb outCb direct_rst ++
  op_table_row0b inCb outCb direct_rst ++
  op_table_row0c inCb outCb direct_rst ++
  op_table_row0d inCb outCb direct_rst ++
  op_table_row0e inCb outCb direct_rst ++
  op_table_row0f inCb outCb direct_rst

/-- Dispatch one opcode through the table; out-of-range opcodes (which a
byte fetch never produces) hit the default arm. -/
def dispatch (inCb outCb : Option Callback) (direct_rst : Bool) (opcode : Nat) (st : CPU) (cycles : Nat) : CPU × Nat :=
  ((op_table inCb outCb direct_rst).getD opcode (fun st cycles => (st, cycles))) st cycles

/-- The PC-advancement step at the end of CPU::execute, from lib.rs:
transfer-of-control opcodes keep the PC the dispatch produced, the
two- and three-byte opcode groups advance by their length, everything
else advances by one. -/
def pc_adv (opcode : Nat) (st : CPU) : CPU :=
  if opcode ∈ [0xe9, 0xc3, 0xDA, 0xD2, 0xCA, 0xC2, 0xFA, 0xF2, 0xEA, 0xE2,
               0xCD, 0xDC, 0xD4, 0xCC, 0xC4, 0xFC, 0xF4, 0xEC, 0xE4,
               0xC9, 0xD8, 0xD0, 0xC8, 0xC0, 0xF8, 0xF0, 0xE8, 0xE0,
               0xC7, 0xCF, 0xD7, 0xDF, 0xE7, 0xEF, 0xF7, 0xFF] then st
  else if opcode ∈ [0x06, 0x0E, 0x16, 0x1E, 0x26, 0x2E, 0x36, 0x3E,
                    0xC6, 0xCE, 0xD6, 0xDE, 0xE6, 0xEE, 0xF6, 0xFE,
                    0xDB, 0xD3] then { st with pc := (st.pc + 2) % 65536 }
  else if opcode ∈ [0x32, 0x3A, 0x22, 0x2A, 0x01, 0x11, 0x21, 0x31] then { st with pc := (st.pc + 3) % 65536 }
  else { st with pc := (st.pc + 1) % 65536 }

/-- CPU::execute, from lib.rs: returns 0 at once when halted; otherwise
fetches the opcode (or takes the injected interrupt opcode when INTE is
set and an interrupt is pending, clearing INTE and the pending slot),
dispatches it, advances the PC per the length table and returns the
cycle count. -/
def execute (inCb outCb : Option Callback) (st0 : CPU) : CPU × Nat :=
  if st0.halt then (st0, 0) else
  let opcode := match st0.inte with
    | false => st0.bus.read_byte st0.pc
    | true => match st0.int.1 with
      | false => st0.bus.read_byte st0.pc
      | true => st0.int.2
  let cycles := CYCLES.getD opcode 0
  let direct_rst := if st0.inte && st0.int.1 then false else true
  let st1 := if st0.inte && st0.int.1 then { st0 with inte := false, int := (false, 0) } else st0
  let r := dispatch inCb outCb direct_rst opcode st1 cycles
  (pc_adv opcode r.1, r.2)

/-- The transfer-of-control opcodes: jumps, calls, returns, restarts and
PCHL, exactly the first group of the PC-advancement match in lib.rs. -/
def ctl_opcodes : List Nat :=
  [0xe9, 0xc3, 0xDA, 0xD2, 0xCA, 0xC2, 0xFA, 0xF2, 0xEA, 0xE2,
   0xCD, 0xDC, 0xD4, 0xCC, 0xC4, 0xFC, 0xF4, 0xEC, 0xE4,
   0xC9, 0xD8, 0xD0, 0xC8, 0xC0, 0xF8, 0xF0, 0xE8, 0xE0,
   0xC7, 0xCF, 0xD7, 0xDF, 0xE7, 0xEF, 0xF7, 0xFF]

/-- Stated from the spec: the instruction length table of the claim, three
bytes for LXI, STA, LDA, SHLD, LHLD, two bytes for the MVI group, the
eight immediate arithmetic opcodes, IN and OUT, one byte for everything
else. The code is compared against this table. -/
def instrLen (op : Nat) : Nat :=
  if op ∈ [0x01, 0x11, 0x21, 0x31, 0x32, 0x3A, 0x22, 0x2A] then 3
  else if op ∈ [0x06, 0x0E, 0x16, 0x1E, 0x26, 0x2E, 0x36, 0x3E,
                0xC6, 0xCE, 0xD6, 0xDE, 0xE6, 0xEE, 0xF6, 0xFE,
                0xDB, 0xD3] then 2
  else 1

/-- Memory initialised from a list of leading bytes, zero elsewhere. -/
def memFromList (l : List Nat) : Nat → Nat :=
  fun x => l.getD x 0

set_option maxHeartbeats 2000000

/-- Unfolding lemma for a normal fetch: when the CPU is not halted and
interrupts are disabled, one step reads the opcode at PC, dispatches it
with the base cycle count and applies the PC-advancement step. -/
theorem execute_normal (inCb outCb : Option Callback) (st : CPU) (op : Nat)
    (h1 : st.halt = false) (h2 : st.inte = false)
    (hop : st.bus.read_byte st.pc = op) :
    execute inCb outCb st =
      (pc_adv op (dispatch inCb outCb true op st (CYCLES.getD op 0)).1,
       (dispatch inCb outCb true op st (CYCLES.getD op 0)).2) := by
  simp [execute, h1, h2, hop]

/-- Unfolding lemma for the interrupt-acknowledge fetch: when INTE is set
and an interrupt is pending, the injected opcode is dispatched in place
of the byte at PC, on the state with INTE and the pending slot already
cleared, with the direct flag false. -/
theorem execute_injected (inCb outCb : Option Callback) (st : CPU) (op : Nat)
    (h1 : st.halt = false) (h2 : st.inte = true)
    (hint : st.int = (true, op)) :
    execute inCb outCb st =
      (pc_adv op (dispatch inCb outCb false op
         { st with inte := false, int := (false, 0) } (CYCLES.getD op 0)).1,
       (dispatch inCb outCb false op
         { st with inte := false, int := (false, 0) } (CYCLES.getD op 0)).2) := by
  simp [execute, h1, h2, hint]

/-- The halted CPU used as the witness input for the halt claim. -/
def c9cpu : CPU :=
  { CPU.new with halt := true, inte := true, int := (true, 0xCF) }

/-- C9: whenever the halt latch is set, execute returns zero cycles and
the state — registers, flags, PC, SP, memory, INTE, the pending slot and
the halt latch itself — is returned unchanged, even with interrupts
enabled and an interrupt pending. -/
theorem c9_halt_frozen (inCb outCb : Option Callback) (st : CPU)
    (h : st.halt = true) :
    execute inCb outCb st = (st, 0) := by
  simp [execute, h]

/-- Witness for C9 at a concrete halted state with a pending interrupt. -/
theorem c9_halt_frozen_witness :
    c9cpu.halt = true ∧ execute none none c9cpu = (c9cpu, 0) :=
  ⟨rfl, c9_halt_frozen none none c9cpu rfl⟩

/-- The CPU used as the witness input for the OUT-mailbox claim: an OUT
to device 5 of the accumulator value 0x42. -/
def c10cpu : CPU :=
  { CPU.new with
    registers := { Registers.new with a := 0x42 }
    bus := { AddressBus.new with address_space := memFromList [0xD3, 0x05] } }

/-- C10: the OUT mailbox holds only the most recent OUT: after set_io_out
to device d with value v, get_io_out answers some v exactly on d and none
elsewhere; a second OUT overwrites the mailbox wholesale; after
clear_io_out every device reads none; and an OUT instruction with no
out-callback publishes the immediate device byte and the accumulator into
the mailbox. -/
theorem c10_out_mailbox :
    (∀ (bus : AddressBus) (d v d2 : Nat),
      (bus.set_io_out d v).get_io_out d2 = if d2 = d then some v else none) ∧
    (∀ (bus : AddressBus) (d v d2 v2 : Nat),
      (bus.set_io_out d v).set_io_out d2 v2 = bus.set_io_out d2 v2) ∧
    (∀ (bus : AddressBus) (d : Nat), bus.clear_io_out.get_io_out d = none) ∧
    (∀ st : CPU, st.halt = false → st.inte = false →
      st.bus.read_byte st.pc = 0xD3 →
      (execute none none st).1.bus =
        st.bus.set_io_out (st.bus.read_byte ((st.pc + 1) % 65536)) st.registers.a) := by
  refine ⟨?_, ?_, ?_, ?_⟩
  · intro bus d v d2
    by_cases h : d2 = d
    · simp [AddressBus.set_io_out, AddressBus.get_io_out, h]
    · simp [AddressBus.set_io_out, AddressBus.get_io_out, h, Ne.symm h]
  · intro bus d v d2 v2
    rfl
  · intro bus d
    simp [AddressBus.clear_io_out, AddressBus.get_io_out]
  · intro st h1 h2 hop
    rw [execute_normal none none st 0xD3 h1 h2 hop]
    rfl

/-- Witness for C10: the concrete OUT above arms the mailbox for device 5
with value 0x42, queries on device 5 and on another device behave as
stated, and clearing empties it. -/
theorem c10_out_mailbox_witness :
    (execute none none c10cpu).1.bus = c10cpu.bus.set_io_out 5 0x42 ∧
    ((c10cpu.bus.set_io_out 5 0x42).get_io_out 5 = some 0x42) ∧
    ((c10cpu.bus.set_io_out 5 0x42).get_io_out 6 = none) ∧
    ((c10cpu.bus.set_io_out 5 0x42).clear_io_out.get_io_out 5 = none) := by
  refine ⟨c10_out_mailbox.2.2.2 c10cpu rfl rfl rfl, ?_, ?_, ?_⟩
  · have h := c10_out_mailbox.1 c10cpu.bus 5 0x42 5
    simpa using h
  · have h := c10_out_mailbox.1 c10cpu.bus 5 0x42 6
    simpa using h
  · exact c10_out_mailbox.2.2.1 (c10cpu.bus.set_io_out 5 0x42) 5

/-- The CPU used as the witness input for the wrap claim: a not-taken JC
sitting at PC 0xFFFE. -/
def c4cpu : CPU :=
  { CPU.new with
    pc := 0xFFFE
    bus := { AddressBus.new with address_space := fun x => if x = 0xFFFE then 0xDA else 0 } }

/-- C4: 16-bit arithmetic wraps modulo 2 to the 16 with no trap:
read_word at 0xFFFF combines the byte at 0xFFFF with the byte at 0x0000
as the high byte, and a not-taken conditional jump executed with PC at
least 0xFFFD leaves PC at (PC + 3) mod 2 to the 16. -/
theorem c4_wraparound :
    (∀ bus : AddressBus,
      bus.read_word 0xFFFF = bus.read_byte 0xFFFF ||| (bus.read_byte 0x0000 <<< 8)) ∧
    (∀ st : CPU, st.halt = false → st.inte = false →
      st.bus.read_byte st.pc = 0xDA → st.flags.c = false → 0xFFFD ≤ st.pc →
      (execute none none st).1.pc = (st.pc + 3) % 65536) := by
  constructor
  · intro bus
    rfl
  · intro st h1 h2 hop hc _
    rw [execute_normal none none st 0xDA h1 h2 hop]
    obtain ⟨regs, fl, pc, sp, bus, halt0, intr, inte0⟩ := st
    obtain ⟨fs, fz, fa, fp, fc⟩ := fl
    simp only at hc
    subst hc
    rfl

/-- Witness for C4: the not-taken JC at 0xFFFE wraps PC to 0x0001. -/
theorem c4_wraparound_witness :
    c4cpu.pc = 0xFFFE ∧ (execute none none c4cpu).1.pc = 1 :=
  ⟨rfl, by
    have h := c4_wraparound.2 c4cpu rfl rfl rfl rfl (by decide)
    simpa using h⟩

/-- Packing after unpacking a byte keeps bits 7, 6, 4, 2, 0, forces bit 1
and drops bits 3 and 5, and each flag reads the matching bit; checked for
every byte. -/
theorem psw_facts : ∀ x < 256,
    Flags.as_byte (Flags.from_byte Flags.new x) = (x ||| 2) &&& 0xD7 ∧
    (Flags.from_byte Flags.new x).s = x.testBit 7 ∧
    (Flags.from_byte Flags.new x).z = x.testBit 6 ∧
    (Flags.from_byte Flags.new x).a = x.testBit 4 ∧
    (Flags.from_byte Flags.new x).p = x.testBit 2 ∧
    (Flags.from_byte Flags.new x).c = x.testBit 0 := by decide

/-- The CPU used as the witness input for the PSW claim: POP PSW with the
byte 0xC3 at the stack pointer. -/
def c6cpu : CPU :=
  { CPU.new with
    sp := 0x10
    bus := { AddressBus.new with
      address_space := fun x => if x = 0 then 0xF1 else if x = 0x10 then 0xC3 else 0 } }

/-- C6: for every byte x, POP PSW with x at (SP) yields flags whose
re-packed byte is (x or 2) and 0xD7, and whose S, Z, A, P, C equal bits
7, 6, 4, 2, 0 of x. -/
theorem c6_pop_psw (st : CPU) (x : Nat) (hx : x < 256)
    (h1 : st.halt = false) (h2 : st.inte = false)
    (hop : st.bus.read_byte st.pc = 0xF1)
    (hsp : st.bus.read_byte st.sp = x) :
    Flags.as_byte (execute none none st).1.flags = (x ||| 2) &&& 0xD7 ∧
    (execute none none st).1.flags.s = x.testBit 7 ∧
    (execute none none st).1.flags.z = x.testBit 6 ∧
    (execute none none st).1.flags.a = x.testBit 4 ∧
    (execute none none st).1.flags.p = x.testBit 2 ∧
    (execute none none st).1.flags.c = x.testBit 0 := by
  rw [execute_normal none none st 0xF1 h1 h2 hop]
  have hfl : (pc_adv 0xF1 (dispatch none none true 0xF1 st (CYCLES.getD 0xF1 0)).1).flags
      = Flags.from_byte st.flags (st.bus.read_byte st.sp) := rfl
  rw [hfl, hsp]
  have hrecv : Flags.from_byte st.flags x = Flags.from_byte Flags.new x := rfl
  rw [hrecv]
  exact psw_facts x hx

/-- Witness for C6 at x = 0xC3: S, Z, C set, A, P clear, and the packed
byte reads 0xC3. -/
theorem c6_pop_psw_witness :
    Flags.as_byte (execute none none c6cpu).1.flags = 0xC3 ∧
    (execute none none c6cpu).1.flags.s = true ∧
    (execute none none c6cpu).1.flags.c = true ∧
    (execute none none c6cpu).1.flags.a = false := by
  have h := c6_pop_psw c6cpu 0xC3 (by decide) rfl rfl rfl rfl
  exact ⟨by simpa using h.1, by simpa using h.2.1, by simpa using h.2.2.2.2.2,
         by simpa using h.2.2.2.1⟩

/-- The sixteen INR and DCR opcodes, register and memory forms. -/
def inr_dcr_opcodes : List Nat :=
  [0x04, 0x0C, 0x14, 0x1C, 0x24, 0x2C, 0x3C, 0x34,
   0x05, 0x0D, 0x15, 0x1D, 0x25, 0x2D, 0x3D, 0x35]

/-- The masked-nibble test of the increment helper agrees with the
modulo-16 phrasing of the claim, for every byte. -/
theorem inr_aux_bridge :
    ∀ n < 256, (decide ((n &&& 0x0f) + 0x01 > 0x0f) : Bool) = decide (n % 16 + 1 > 15) := by
  decide

/-- The masked-nibble test of the decrement helper agrees with the
modulo-16 phrasing of the claim, for every byte. -/
theorem dcr_aux_bridge :
    ∀ r < 256, (decide ((r &&& 0x0f) ≠ 0x0f) : Bool) = decide (r % 16 ≠ 15) := by
  decide

/-- The low-bit test on the popcount agrees with evenness, for every
byte. -/
theorem parity_bridge :
    ∀ r < 256, (decide (count_ones r &&& 0x01 = 0) : Bool) = decide (Even (count_ones r)) := by
  decide

/-- The CPU used as the witness input for the INR and DCR claim: INR B
with B = 0x0F and the carry flag set. -/
def c7cpu : CPU :=
  { CPU.new with
    registers := { Registers.new with b := 0x0F }
    flags := { Flags.new with c := true }
    bus := { AddressBus.new with address_space := memFromList [0x04] } }

/-- C7: the INR and DCR helpers update S, Z, A, P and leave the carry
flag untouched; the auxiliary carry is set for INR exactly when the low
nibble of the operand plus one exceeds 0x0F and for DCR exactly when the
low nibble of the result differs from 0x0F; and every register or memory
form of INR and DCR preserves the carry flag through execute. -/
theorem c7_inr_dcr_flags :
    (∀ (st : CPU) (n : Nat), n < 256 →
      ((st.inr n).1.flags.c = st.flags.c) ∧
      ((st.inr n).2 = (n + 1) % 256) ∧
      ((st.inr n).1.flags.z = decide ((n + 1) % 256 = 0)) ∧
      ((st.inr n).1.flags.s = ((n + 1) % 256).testBit 7) ∧
      ((st.inr n).1.flags.p = decide (Even (count_ones ((n + 1) % 256)))) ∧
      ((st.inr n).1.flags.a = decide (n % 16 + 1 > 15))) ∧
    (∀ (st : CPU) (n : Nat), n < 256 →
      ((st.dcr n).1.flags.c = st.flags.c) ∧
      ((st.dcr n).2 = (n + 255) % 256) ∧
      ((st.dcr n).1.flags.z = decide ((n + 255) % 256 = 0)) ∧
      ((st.dcr n).1.flags.s = ((n + 255) % 256).testBit 7) ∧
      ((st.dcr n).1.flags.p = decide (Even (count_ones ((n + 255) % 256)))) ∧
      ((st.dcr n).1.flags.a = decide ((n + 255) % 256 % 16 ≠ 15))) ∧
    (∀ (st : CPU) (op : Nat), op ∈ inr_dcr_opcodes →
      st.halt = false → st.inte = false → st.bus.read_byte st.pc = op →
      (execute none none st).1.flags.c = st.flags.c) := by
  refine ⟨?_, ?_, ?_⟩
  · intro st n hn
    exact ⟨rfl, rfl, rfl, rfl,
      parity_bridge ((n + 1) % 256) (Nat.mod_lt _ (by decide)),
      inr_aux_bridge n hn⟩
  · intro st n hn
    exact ⟨rfl, rfl, rfl, rfl,
      parity_bridge ((n + 255) % 256) (Nat.mod_lt _ (by decide)),
      dcr_aux_bridge ((n + 255) % 256) (Nat.mod_lt _ (by decide))⟩
  · intro st op hmem h1 h2 hop
    rw [execute_normal none none st op h1 h2 hop]
    simp only [inr_dcr_opcodes, List.mem_cons, List.not_mem_nil, or_false] at hmem
    rcases hmem with rfl|rfl|rfl|rfl|rfl|rfl|rfl|rfl|rfl|rfl|rfl|rfl|rfl|rfl|rfl|rfl <;> rfl

/-- Witness for C7: INR B on B = 0x0F preserves the set carry flag, and
the helper yields 0x10 with the auxiliary carry set. -/
theorem c7_inr_dcr_flags_witness :
    (execute none none c7cpu).1.flags.c = true ∧
    (c7cpu.inr 0x0F).2 = 0x10 ∧
    (c7cpu.inr 0x0F).1.flags.a = true := by
  refine ⟨?_, ?_, ?_⟩
  · have h := c7_inr_dcr_flags.2.2 c7cpu 0x04 (by decide) rfl rfl rfl
    simpa using h
  · have h := (c7_inr_dcr_flags.1 c7cpu 0x0F (by decide)).2.1
    simpa using h
  · have h := (c7_inr_dcr_flags.1 c7cpu 0x0F (by decide)).2.2.2.2.2
    simpa using h

/-- A bus whose ROM window is the top sixteen bytes, memory all zero;
input for the ROM-window counterexample and witness. -/
def c1bus : AddressBus :=
  { AddressBus.new with rom_space := some { start := 0xfff0, stop := 0xffff } }

/-- C1 counterexample: with the ROM window 0xFFF0 to 0xFFFF, the word
write at 0xFFEF has only its high address inside the window, yet the
write is not dropped: the byte inside the window, at 0xFFF0, changes from
0 to 0xAB. The claim that every word write touching the window leaves
memory unchanged is therefore false. -/
theorem c1_rom_window_counterexample :
    (c1bus.write_word 0xffef 0xABCD).address_space 0xfff0 ≠
      c1bus.address_space 0xfff0 := by
  decide

/-- C1 amended: a word write is dropped wholesale exactly when its low
address lies inside the ROM window; byte writes inside the window are
dropped and reads are unaffected by a dropped write; but a word write
whose low address is below the window start proceeds in full, storing
both bytes, the high byte landing at the wrapped successor address even
when that address is inside the window. -/
theorem c1_rom_window_amended :
    (∀ (bus : AddressBus) (s e a v : Nat), bus.rom_space = some { start := s, stop := e } →
      s ≤ a → a ≤ e →
      bus.write_word a v = bus ∧ bus.write_byte a v = bus ∧
      (∀ x, (bus.write_word a v).read_byte x = bus.read_byte x)) ∧
    (∀ (bus : AddressBus) (s e a v : Nat), bus.rom_space = some { start := s, stop := e } →
      ¬(s ≤ a ∧ a ≤ e) →
      (bus.write_word a v).address_space =
        upd (upd bus.address_space a (v &&& 0xFF)) ((a + 1) % 65536) (v >>> 8)) := by
  constructor
  · intro bus s e a v hrom h1 h2
    refine ⟨?_, ?_, ?_⟩
    · simp [AddressBus.write_word, hrom, h1, h2]
    · simp [AddressBus.write_byte, hrom, h1, h2]
    · intro x
      simp [AddressBus.write_word, hrom, h1, h2]
  · intro bus s e a v hrom hni
    simp [AddressBus.write_word, hrom, hni]

/-- Witness for C1: a word write with its low address inside the window
is a no-op, and the straddling word write at 0xFFEF stores 0xAB at
0xFFF0 inside the window. -/
theorem c1_rom_window_amended_witness :
    c1bus.write_word 0xfff5 0x1234 = c1bus ∧
    (c1bus.write_word 0xffef 0xABCD).address_space 0xfff0 = 0xAB := by
  constructor
  · exact (c1_rom_window_amended.1 c1bus 0xfff0 0xffff 0xfff5 0x1234 rfl
      (by decide) (by decide)).1
  · have h := c1_rom_window_amended.2 c1bus 0xfff0 0xffff 0xffef 0xABCD rfl
      (by decide)
    have h2 := congrFun h 0xfff0
    simpa [upd] using h2

/-- C3 counterexample: loading a two-byte file at origin 0xFFFF does not
return an image-too-large error value; the slice copy in the source
panics, modelled by the panicked outcome. -/
theorem c3_load_bin_counterexample :
    AddressBus.new.load_bin (some [0x55, 0x55]) 0xFFFF = LoadResult.panicked := by
  rfl

/-- C3 amended: load_bin returns the propagated io error when the file
cannot be opened; when origin plus file length exceeds the 65,536-byte
address space it panics out of bounds instead of returning an error (and
writes nothing); on success the file bytes are copied verbatim starting
at origin and all other state is untouched. -/
theorem c3_load_bin_amended :
    (∀ (bus : AddressBus) (org : Nat), bus.load_bin none org = LoadResult.ioError) ∧
    (∀ (bus : AddressBus) (buf : List Nat) (org : Nat),
      65536 < org + buf.length → bus.load_bin (some buf) org = LoadResult.panicked) ∧
    (∀ (bus : AddressBus) (buf : List Nat) (org : Nat),
      org + buf.length ≤ 65536 →
      ∃ bus2, bus.load_bin (some buf) org = LoadResult.ok bus2 ∧
        (∀ i, i < buf.length → bus2.address_space (org + i) = buf.getD i 0) ∧
        (∀ x, x < org ∨ org + buf.length ≤ x → bus2.address_space x = bus.address_space x) ∧
        bus2.rom_space = bus.rom_space ∧ bus2.io_in = bus.io_in ∧
        bus2.pending_io = bus.pending_io) := by
  refine ⟨fun bus org => rfl, ?_, ?_⟩
  · intro bus buf org h
    simp [AddressBus.load_bin, h]
  · intro bus buf org h
    refine ⟨{ bus with address_space := fun x =>
        if org ≤ x ∧ x < org + buf.length then buf.getD (x - org) 0
        else bus.address_space x }, ?_, ?_, ?_, rfl, rfl, rfl⟩
    · simp [AddressBus.load_bin, Nat.not_lt.2 h]
    · intro i hi
      have hc : org ≤ org + i ∧ org + i < org + buf.length := by omega
      simp [hc, Nat.add_sub_cancel_left]
    · intro x hx
      have hc : ¬(org ≤ x ∧ x < org + buf.length) := by omega
      simp [hc]

/-- Witness for C3: a missing file yields the io error, and a three-byte
file at origin 65,535 panics. -/
theorem c3_load_bin_amended_witness :
    AddressBus.new.load_bin none 0 = LoadResult.ioError ∧
    AddressBus.new.load_bin (some [7, 8, 9]) 65535 = LoadResult.panicked :=
  ⟨c3_load_bin_amended.1 AddressBus.new 0,
   c3_load_bin_amended.2.1 AddressBus.new [7, 8, 9] 65535 (by decide)⟩

/-- The CPU used as the counterexample input for the conditional-call
cycle claim: a CC instruction at 0 with the carry flag set, so the call
is taken. -/
def c2cpu : CPU :=
  { CPU.new with
    flags := { Flags.new with c := true }
    sp := 0xFF00
    bus := { AddressBus.new with address_space := memFromList [0xDC, 0x34, 0x12] } }

/-- The CPU used as the witness input for the amended conditional-call
claim: a CNC instruction at 0 with the carry flag clear, so the call is
taken. -/
def c2wcpu : CPU :=
  { CPU.new with
    sp := 0xFF00
    bus := { AddressBus.new with address_space := memFromList [0xD4, 0x34, 0x12] } }

/-- C2 counterexample: a taken CC (opcode 0xDC) performs the call — PC
becomes the target — but execute returns the base 11 cycles, not the 17
the claim asserts for every taken conditional call. -/
theorem c2_cond_call_counterexample :
    c2cpu.flags.c = true ∧ (execute none none c2cpu).1.pc = 0x1234 ∧
    (execute none none c2cpu).2 = 11 :=
  ⟨rfl, rfl, rfl⟩

/-- C2 amended: for the seven conditional calls CNC, CZ, CNZ, CM, CP,
CPE, CPO a taken call pushes the return address PC plus three, jumps to
the immediate target and returns 17 cycles, and a not-taken call
advances PC by three and returns 11; CC (0xDC) takes the call path the
same way but returns the base 11 cycles even when taken. -/
theorem c2_cond_call_amended (st : CPU)
    (h1 : st.halt = false) (h2 : st.inte = false) :
    (st.bus.read_byte st.pc = 0xDC → st.flags.c = true →
      execute none none st =
        ({ st with
            sp := (st.sp + 65536 - 2) % 65536
            bus := st.bus.write_word ((st.sp + 65536 - 2) % 65536) ((st.pc + 3) % 65536)
            pc := st.bus.read_word ((st.pc + 1) % 65536) }, 11)) ∧
    (st.bus.read_byte st.pc = 0xDC → st.flags.c = false →
      execute none none st = ({ st with pc := (st.pc + 3) % 65536 }, 11)) ∧
    (st.bus.read_byte st.pc = 0xD4 → st.flags.c = false →
      execute none none st =
        ({ st with
            sp := (st.sp + 65536 - 2) % 65536
            bus := st.bus.write_word ((st.sp + 65536 - 2) % 65536) ((st.pc + 3) % 65536)
            pc := st.bus.read_word ((st.pc + 1) % 65536) }, 17)) ∧
    (st.bus.read_byte st.pc = 0xD4 → st.flags.c = true →
      execute none none st = ({ st with pc := (st.pc + 3) % 65536 }, 11)) ∧
    (st.bus.read_byte st.pc = 0xCC → st.flags.z = true →
      execute none none st =
        ({ st with
            sp := (st.sp + 65536 - 2) % 65536
            bus := st.bus.write_word ((st.sp + 65536 - 2) % 65536) ((st.pc + 3) % 65536)
            pc := st.bus.read_word ((st.pc + 1) % 65536) }, 17)) ∧
    (st.bus.read_byte st.pc = 0xCC → st.flags.z = false →
      execute none none st = ({ st with pc := (st.pc + 3) % 65536 }, 11)) ∧
    (st.bus.read_byte st.pc = 0xC4 → st.flags.z = false →
      execute none none st =
        ({ st with
            sp := (st.sp + 65536 - 2) % 65536
            bus := st.bus.write_word ((st.sp + 65536 - 2) % 65536) ((st.pc + 3) % 65536)
            pc := st.bus.read_word ((st.pc + 1) % 65536) }, 17)) ∧
    (st.bus.read_byte st.pc = 0xC4 → st.flags.z = true →
      execute none none st = ({ st with pc := (st.pc + 3) % 65536 }, 11)) ∧
    (st.bus.read_byte st.pc = 0xFC → st.flags.s = true →
      execute none none st =
        ({ st with
            sp := (st.sp + 65536 - 2) % 65536
            bus := st.bus.write_word ((st.sp + 65536 - 2) % 65536) ((st.pc + 3) % 65536)
            pc := st.bus.read_word ((st.pc + 1) % 65536) }, 17)) ∧
    (st.bus.read_byte st.pc = 0xFC → st.flags.s = false →
      execute none none st = ({ st with pc := (st.pc + 3) % 65536 }, 11)) ∧
    (st.bus.read_byte st.pc = 0xF4 → st.flags.s = false →
      execute none none st =
        ({ st with
            sp := (st.sp + 65536 - 2) % 65536
            bus := st.bus.write_word ((st.sp + 65536 - 2) % 65536) ((st.pc + 3) % 65536)
            pc := st.bus.read_word ((st.pc + 1) % 65536) }, 17)) ∧
    (st.bus.read_byte st.pc = 0xF4 → st.flags.s = true →
      execute none none st = ({ st with pc := (st.pc + 3) % 65536 }, 11)) ∧
    (st.bus.read_byte st.pc = 0xEC → st.flags.p = true →
      execute none none st =
        ({ st with
            sp := (st.sp + 65536 - 2) % 65536
            bus := st.bus.write_word ((st.sp + 65536 - 2) % 65536) ((st.pc + 3) % 65536)
            pc := st.bus.read_word ((st.pc + 1) % 65536) }, 17)) ∧
    (st.bus.read_byte st.pc = 0xEC → st.flags.p = false →
      execute none none st = ({ st with pc := (st.pc + 3) % 65536 }, 11)) ∧
    (st.bus.read_byte st.pc = 0xE4 → st.flags.p = false →
      execute none none st =
        ({ st with
            sp := (st.sp + 65536 - 2) % 65536
            bus := st.bus.write_word ((st.sp + 65536 - 2) % 65536) ((st.pc + 3) % 65536)
            pc := st.bus.read_word ((st.pc + 1) % 65536) }, 17)) ∧
    (st.bus.read_byte st.pc = 0xE4 → st.flags.p = true →
      execute none none st = ({ st with pc := (st.pc + 3) % 65536 }, 11)) := by
  refine ⟨?_, ?_, ?_, ?_, ?_, ?_, ?_, ?_, ?_, ?_, ?_, ?_, ?_, ?_, ?_, ?_⟩
  · intro hop hflag
    rw [execute_normal none none st 0xDC h1 h2 hop]
    obtain ⟨regs, fl, pc, sp, bus, halt0, intr, inte0⟩ := st
    obtain ⟨fs, fz, fa, fp, fc⟩ := fl
    have hx : fc = true := hflag
    subst hx
    rfl
  · intro hop hflag
    rw [execute_normal none none st 0xDC h1 h2 hop]
    obtain ⟨regs, fl, pc, sp, bus, halt0, intr, inte0⟩ := st
    obtain ⟨fs, fz, fa, fp, fc⟩ := fl
    have hx : fc = false := hflag
    subst hx
    rfl
  · intro hop hflag
    rw [execute_normal none none st 0xD4 h1 h2 hop]
    obtain ⟨regs, fl, pc, sp, bus, halt0, intr, inte0⟩ := st
    obtain ⟨fs, fz, fa, fp, fc⟩ := fl
    have hx : fc = false := hflag
    subst hx
    rfl
  · intro hop hflag
    rw [execute_normal none none st 0xD4 h1 h2 hop]
    obtain ⟨regs, fl, pc, sp, bus, halt0, intr, inte0⟩ := st
    obtain ⟨fs, fz, fa, fp, fc⟩ := fl
    have hx : fc = true := hflag
    subst hx
    rfl
  · intro hop hflag
    rw [execute_normal none none st 0xCC h1 h2 hop]
    obtain ⟨regs, fl, pc, sp, bus, halt0, intr, inte0⟩ := st
    obtain ⟨fs, fz, fa, fp, fc⟩ := fl
    have hx : fz = true := hflag
    subst hx
    rfl
  · intro hop hflag
    rw [execute_normal none none st 0xCC h1 h2 hop]
    obtain ⟨regs, fl, pc, sp, bus, halt0, intr, inte0⟩ := st
    obtain ⟨fs, fz, fa, fp, fc⟩ := fl
    have hx : fz = false := hflag
    subst hx
    rfl
  · intro hop hflag
    rw [execute_normal none none st 0xC4 h1 h2 hop]
    obtain ⟨regs, fl, pc, sp, bus, halt0, intr, inte0⟩ := st
    obtain ⟨fs, fz, fa, fp, fc⟩ := fl
    have hx : fz = false := hflag
    subst hx
    rfl
  · intro hop hflag
    rw [execute_normal none none st 0xC4 h1 h2 hop]
    obtain ⟨regs, fl, pc, sp, bus, halt0, intr, inte0⟩ := st
    obtain ⟨fs, fz, fa, fp, fc⟩ := fl
    have hx : fz = true := hflag
    subst hx
    rfl
  · intro hop hflag
    rw [execute_normal none none st 0xFC h1 h2 hop]
    obtain ⟨regs, fl, pc, sp, bus, halt0, intr, inte0⟩ := st
    obtain ⟨fs, fz, fa, fp, fc⟩ := fl
    have hx : fs = true := hflag
    subst hx
    rfl
  · intro hop hflag
    rw [execute_normal none none st 0xFC h1 h2 hop]
    obtain ⟨regs, fl, pc, sp, bus, halt0, intr, inte0⟩ := st
    obtain ⟨fs, fz, fa, fp, fc⟩ := fl
    have hx : fs = false := hflag
    subst hx
    rfl
  · intro hop hflag
    rw [execute_normal none none st 0xF4 h1 h2 hop]
    obtain ⟨regs, fl, pc, sp, bus, halt0, intr, inte0⟩ := st
    obtain ⟨fs, fz, fa, fp, fc⟩ := fl
    have hx : fs = false := hflag
    subst hx
    rfl
  · intro hop hflag
    rw [execute_normal none none st 0xF4 h1 h2 hop]
    obtain ⟨regs, fl, pc, sp, bus, halt0, intr, inte0⟩ := st
    obtain ⟨fs, fz, fa, fp, fc⟩ := fl
    have hx : fs = true := hflag
    subst hx
    rfl
  · intro hop hflag
    rw [execute_normal none none st 0xEC h1 h2 hop]
    obtain ⟨regs, fl, pc, sp, bus, halt0, intr, inte0⟩ := st
    obtain ⟨fs, fz, fa, fp, fc⟩ := fl
    have hx : fp = true := hflag
    subst hx
    rfl
  · intro hop hflag
    rw [execute_normal none none st 0xEC h1 h2 hop]
    obtain ⟨regs, fl, pc, sp, bus, halt0, intr, inte0⟩ := st
    obtain ⟨fs, fz, fa, fp, fc⟩ := fl
    have hx : fp = false := hflag
    subst hx
    rfl
  · intro hop hflag
    rw [execute_normal none none st 0xE4 h1 h2 hop]
    obtain ⟨regs, fl, pc, sp, bus, halt0, intr, inte0⟩ := st
    obtain ⟨fs, fz, fa, fp, fc⟩ := fl
    have hx : fp = false := hflag
    subst hx
    rfl
  · intro hop hflag
    rw [execute_normal none none st 0xE4 h1 h2 hop]
    obtain ⟨regs, fl, pc, sp, bus, halt0, intr, inte0⟩ := st
    obtain ⟨fs, fz, fa, fp, fc⟩ := fl
    have hx : fp = true := hflag
    subst hx
    rfl

/-- Witness for C2: the taken CNC calls 0x1234, pushes the return
address at 0xFEFE and returns 17 cycles; the taken CC of the
counexample state returns 11. -/
theorem c2_cond_call_amended_witness :
    (execute none none c2wcpu).2 = 17 ∧
    (execute none none c2wcpu).1.pc = 0x1234 ∧
    (execute none none c2wcpu).1.sp = 0xFEFE ∧
    (execute none none c2wcpu).1.bus.address_space 0xFEFE = 3 := by
  have h := (c2_cond_call_amended c2wcpu rfl rfl).2.2.1 rfl rfl
  refine ⟨by rw [h], by rw [h]; rfl, by rw [h]; rfl, by rw [h]; rfl⟩


/-- The CPU used as the witness input for the interrupt claim, indirect
path: interrupts enabled and RST 1 pending, PC at 0x0100. -/
def c5icpu : CPU :=
  { CPU.new with sp := 0xFF00, pc := 0x0100, inte := true, int := (true, 0xCF) }

/-- The CPU used as the witness input for the interrupt claim, direct
path: an RST 1 opcode in program memory at PC 0x0100. -/
def c5dcpu : CPU :=
  { CPU.new with
    sp := 0xFF00
    pc := 0x0100
    bus := { AddressBus.new with address_space := fun x => if x = 0x0100 then 0xCF else 0 } }

/-- C5: with INTE set and an RST n armed in the pending slot, the next
execute runs the injected opcode instead of the byte at PC, clears INTE
and the pending slot, pushes the bare current PC and jumps to the vector
n times 8; the same RST fetched from program memory instead pushes PC
plus one. Both paths return the base 11 cycles. -/
theorem c5_interrupt_rst (st : CPU) (n : Nat) (hn : n < 8) :
    (st.halt = false → st.inte = true → st.int = (true, 0xC7 + 8 * n) →
      execute none none st =
        ({ st with
            inte := false
            int := (false, 0)
            sp := (st.sp + 65536 - 2) % 65536
            bus := st.bus.write_word ((st.sp + 65536 - 2) % 65536) st.pc
            pc := 8 * n }, 11)) ∧
    (st.halt = false → st.inte = false → st.bus.read_byte st.pc = 0xC7 + 8 * n →
      execute none none st =
        ({ st with
            sp := (st.sp + 65536 - 2) % 65536
            bus := st.bus.write_word ((st.sp + 65536 - 2) % 65536) ((st.pc + 1) % 65536)
            pc := 8 * n }, 11)) := by
  constructor
  · intro h1 h2 h3
    rw [execute_injected none none st (0xC7 + 8 * n) h1 h2 h3]
    obtain ⟨regs, fl, pc, sp, bus, halt0, intr, inte0⟩ := st
    interval_cases n <;> rfl
  · intro h1 h2 hop
    rw [execute_normal none none st (0xC7 + 8 * n) h1 h2 hop]
    obtain ⟨regs, fl, pc, sp, bus, halt0, intr, inte0⟩ := st
    interval_cases n <;> rfl

/-- Witness for C5: the injected RST 1 jumps to 0x0008, clears INTE and
the pending slot and pushes the bare PC 0x0100; the program-fetched
RST 1 pushes 0x0101. -/
theorem c5_interrupt_rst_witness :
    (execute none none c5icpu).1.pc = 8 ∧
    (execute none none c5icpu).1.inte = false ∧
    (execute none none c5icpu).1.int = (false, 0) ∧
    (execute none none c5icpu).1.bus.address_space 0xFEFE = 0x00 ∧
    (execute none none c5icpu).1.bus.address_space 0xFEFF = 0x01 ∧
    (execute none none c5icpu).2 = 11 ∧
    (execute none none c5dcpu).1.pc = 8 ∧
    (execute none none c5dcpu).1.bus.address_space 0xFEFE = 0x01 ∧
    (execute none none c5dcpu).1.bus.address_space 0xFEFF = 0x01 := by
  have hi := (c5_interrupt_rst c5icpu 1 (by decide)).1 rfl rfl rfl
  have hd := (c5_interrupt_rst c5dcpu 1 (by decide)).2 rfl rfl rfl
  refine ⟨by rw [hi], by rw [hi], by rw [hi],
    by rw [hi]; rfl, by rw [hi]; rfl, by rw [hi],
    by rw [hd], by rw [hd]; rfl, by rw [hd]; rfl⟩

/-- The CPU used as the witness input for the PC-advancement claim: a
NOP at 0. -/
def c8cpu : CPU := CPU.new

set_option maxRecDepth 400000
set_option maxHeartbeats 16000000

/-- C8: for every opcode outside the transfer-of-control set (the jumps,
calls, returns, restarts and PCHL listed in ctl_opcodes), one execute
step advances PC by exactly the length-table entry instrLen: three bytes
for LXI, STA, LDA, SHLD, LHLD, two bytes for the MVI group, the eight
immediate arithmetic opcodes, IN and OUT, one byte for everything else.
The 220 non-control opcodes are enumerated as one conjunct each. -/
theorem c8_pc_advance (st : CPU) (h1 : st.halt = false) (h2 : st.inte = false) :
    (st.bus.read_byte st.pc = 0x00 →
      (execute none none st).1.pc = (st.pc + instrLen 0x00) % 65536) ∧
    (st.bus.read_byte st.pc = 0x01 →
      (execute none none st).1.pc = (st.pc + instrLen 0x01) % 65536) ∧
    (st.bus.read_byte st.pc = 0x02 →
      (execute none none st).1.pc = (st.pc + instrLen 0x02) % 65536) ∧
    (st.bus.read_byte st.pc = 0x03 →
      (execute none none st).1.pc = (st.pc + instrLen 0x03) % 65536) ∧
    (st.bus.read_byte st.pc = 0x04 →
      (execute none none st).1.pc = (st.pc + instrLen 0x04) % 65536) ∧
    (st.bus.read_byte st.pc = 0x05 →
      (execute none none st).1.pc = (st.pc + instrLen 0x05) % 65536) ∧
    (st.bus.read_byte st.pc = 0x06 →
      (execute none none st).1.pc = (st.pc + instrLen 0x06) % 65536) ∧
    (st.bus.read_byte st.pc = 0x07 →
      (execute none none st).1.pc = (st.pc + instrLen 0x07) % 65536) ∧
    (st.bus.read_byte st.pc = 0x08 →
      (execute none none st).1.pc = (st.pc + instrLen 0x08) % 65536) ∧
    (st.bus.read_byte st.pc = 0x09 →
      (execute none none st).1.pc = (st.pc + instrLen 0x09) % 65536) ∧
    (st.bus.read_byte st.pc = 0x0a →
      (execute none none st).1.pc = (st.pc + instrLen 0x0a) % 65536) ∧
    (st.bus.read_byte st.pc = 0x0b →
      (execute none none st).1.pc = (st.pc + instrLen 0x0b) % 65536) ∧
    (st.bus.read_byte st.pc = 0x0c →
      (execute none none st).1.pc = (st.pc + instrLen 0x0c) % 65536) ∧
    (st.bus.read_byte st.pc = 0x0d →
      (execute none none st).1.pc = (st.pc + instrLen 0x0d) % 65536) ∧
    (st.bus.read_byte st.pc = 0x0e →
      (execute none none st).1.pc = (st.pc + instrLen 0x0e) % 65536) ∧
    (st.bus.read_byte st.pc = 0x0f →
      (execute none none st).1.pc = (st.pc + instrLen 0x0f) % 65536) ∧
    (st.bus.read_byte st.pc = 0x10 →
      (execute none none st).1.pc = (st.pc + instrLen 0x10) % 65536) ∧
    (st.bus.read_byte st.pc = 0x11 →
      (execute none none st).1.pc = (st.pc + instrLen 0x11) % 65536) ∧
    (st.bus.read_byte st.pc = 0x12 →
      (execute none none st).1.pc = (st.pc + instrLen 0x12) % 65536) ∧
    (st.bus.read_byte st.pc = 0x13 →
      (execute none none st).1.pc = (st.pc + instrLen 0x13) % 65536) ∧
    (st.bus.read_byte st.pc = 0x14 →
      (execute none none st).1.pc = (st.pc + instrLen 0x14) % 65536) ∧
    (st.bus.read_byte st.pc = 0x15 →
      (execute none none st).1.pc = (st.pc + instrLen 0x15) % 65536) ∧
    (st.bus.read_byte st.pc = 0x16 →
      (execute none none st).1.pc = (st.pc + instrLen 0x16) % 65536) ∧
    (st.bus.read_byte st.pc = 0x17 →
      (execute none none st).1.pc = (st.pc + instrLen 0x17) % 65536) ∧
    (st.bus.read_byte st.pc = 0x18 →
      (execute none none st).1.pc = (st.pc + instrLen 0x18) % 65536) ∧
    (st.bus.read_byte st.pc = 0x19 →
      (execute none none st).1.pc = (st.pc + instrLen 0x19) % 65536) ∧
    (st.bus.read_byte st.pc = 0x1a →
      (execute none none st).1.pc = (st.pc + instrLen 0x1a) % 65536) ∧
    (st.bus.read_byte st.pc = 0x1b →
      (execute none none st).1.pc = (st.pc + instrLen 0x1b) % 65536) ∧
    (st.bus.read_byte st.pc = 0x1c →
      (execute none none st).1.pc = (st.pc + instrLen 0x1c) % 65536) ∧
    (st.bus.read_byte st.pc = 0x1d →
      (execute none none st).1.pc = (st.pc + instrLen 0x1d) % 65536) ∧
    (st.bus.read_byte st.pc = 0x1e →
      (execute none none st).1.pc = (st.pc + instrLen 0x1e) % 65536) ∧
    (st.bus.read_byte st.pc = 0x1f →
      (execute none none st).1.pc = (st.pc + instrLen 0x1f) % 65536) ∧
    (st.bus.read_byte st.pc = 0x20 →
      (execute none none st).1.pc = (st.pc + instrLen 0x20) % 65536) ∧
    (st.bus.read_byte st.pc = 0x21 →
      (execute none none st).1.pc = (st.pc + instrLen 0x21) % 65536) ∧
    (st.bus.read_byte st.pc = 0x22 →
      (execute none none st).1.pc = (st.pc + instrLen 0x22) % 65536) ∧
    (st.bus.read_byte st.pc = 0x23 →
      (execute none none st).1.pc = (st.pc + instrLen 0x23) % 65536) ∧
    (st.bus.read_byte st.pc = 0x24 →
      (execute none none st).1.pc = (st.pc + instrLen 0x24) % 65536) ∧
    (st.bus.read_byte st.pc = 0x25 →
      (execute none none st).1.pc = (st.pc + instrLen 0x25) % 65536) ∧
    (st.bus.read_byte st.pc = 0x26 →
      (execute none none st).1.pc = (st.pc + instrLen 0x26) % 65536) ∧
    (st.bus.read_byte st.pc = 0x27 →
      (execute none none st).1.pc = (st.pc + instrLen 0x27) % 65536) ∧
    (st.bus.read_byte st.pc = 0x28 →
      (execute none none st).1.pc = (st.pc + instrLen 0x28) % 65536) ∧
    (st.bus.read_byte st.pc = 0x29 →
      (execute none none st).1.pc = (st.pc + instrLen 0x29) % 65536) ∧
    (st.bus.read_byte st.pc = 0x2a →
      (execute none none st).1.pc = (st.pc + instrLen 0x2a) % 65536) ∧
    (st.bus.read_byte st.pc = 0x2b →
      (execute none none st).1.pc = (st.pc + instrLen 0x2b) % 65536) ∧
    (st.bus.read_byte st.pc = 0x2c →
      (execute none none st).1.pc = (st.pc + instrLen 0x2c) % 65536) ∧
    (st.bus.read_byte st.pc = 0x2d →
      (execute none none st).1.pc = (st.pc + instrLen 0x2d) % 65536) ∧
    (st.bus.read_byte st.pc = 0x2e →
      (execute none none st).1.pc = (st.pc + instrLen 0x2e) % 65536) ∧
    (st.bus.read_byte st.pc = 0x2f →
      (execute none none st).1.pc = (st.pc + instrLen 0x2f) % 65536) ∧
    (st.bus.read_byte st.pc = 0x30 →
      (execute none none st).1.pc = (st.pc + instrLen 0x30) % 65536) ∧
    (st.bus.read_byte st.pc = 0x31 →
      (execute none none st).1.pc = (st.pc + instrLen 0x31) % 65536) ∧
    (st.bus.read_byte st.pc = 0x32 →
      (execute none none st).1.pc = (st.pc + instrLen 0x32) % 65536) ∧
    (st.bus.read_byte st.pc = 0x33 →
      (execute none none st).1.pc = (st.pc + instrLen 0x33) % 65536) ∧
    (st.bus.read_byte st.pc = 0x34 →
      (execute none none st).1.pc = (st.pc + instrLen 0x34) % 65536) ∧
    (st.bus.read_byte st.pc = 0x35 →
      (execute none none st).1.pc = (st.pc + instrLen 0x35) % 65536) ∧
    (st.bus.read_byte st.pc = 0x36 →
      (execute none none st).1.pc = (st.pc + instrLen 0x36) % 65536) ∧
    (st.bus.read_byte st.pc = 0x37 →
      (execute none none st).1.pc = (st.pc + instrLen 0x37) % 65536) ∧
    (st.bus.read_byte st.pc = 0x38 →
      (execute none none st).1.pc = (st.pc + instrLen 0x38) % 65536) ∧
    (st.bus.read_byte st.pc = 0x39 →
      (execute none none st).1.pc = (st.pc + instrLen 0x39) % 65536) ∧
    (st.bus.read_byte st.pc = 0x3a →
      (execute none none st).1.pc = (st.pc + instrLen 0x3a) % 65536) ∧
    (st.bus.read_byte st.pc = 0x3b →
      (execute none none st).1.pc = (st.pc + instrLen 0x3b) % 65536) ∧
    (st.bus.read_byte st.pc = 0x3c →
      (execute none none st).1.pc = (st.pc + instrLen 0x3c) % 65536) ∧
    (st.bus.read_byte st.pc = 0x3d →
      (execute none none st).1.pc = (st.pc + instrLen 0x3d) % 65536) ∧
    (st.bus.read_byte st.pc = 0x3e →
      (execute none none st).1.pc = (st.pc + instrLen 0x3e) % 65536) ∧
    (st.bus.read_byte st.pc = 0x3f →
      (execute none none st).1.pc = (st.pc + instrLen 0x3f) % 65536) ∧
    (st.bus.read_byte st.pc = 0x40 →
      (execute none none st).1.pc = (st.pc + instrLen 0x40) % 65536) ∧
    (st.bus.read_byte st.pc = 0x41 →
      (execute none none st).1.pc = (st.pc + instrLen 0x41) % 65536) ∧
    (st.bus.read_byte st.pc = 0x42 →
      (execute none none st).1.pc = (st.pc + instrLen 0x42) % 65536) ∧
    (st.bus.read_byte st.pc = 0x43 →
      (execute none none st).1.pc = (st.pc + instrLen 0x43) % 65536) ∧
    (st.bus.read_byte st.pc = 0x44 →
      (execute none none st).1.pc = (st.pc + instrLen 0x44) % 65536) ∧
    (st.bus.read_byte st.pc = 0x45 →
      (execute none none st).1.pc = (st.pc + instrLen 0x45) % 65536) ∧
    (st.bus.read_byte st.pc = 0x46 →
      (execute none none st).1.pc = (st.pc + instrLen 0x46) % 65536) ∧
    (st.bus.read_byte st.pc = 0x47 →
      (execute none none st).1.pc = (st.pc + instrLen 0x47) % 65536) ∧
    (st.bus.read_byte st.pc = 0x48 →
      (execute none none st).1.pc = (st.pc + instrLen 0x48) % 65536) ∧
    (st.bus.read_byte st.pc = 0x49 →
      (execute none none st).1.pc = (st.pc + instrLen 0x49) % 65536) ∧
    (st.bus.read_byte st.pc = 0x4a →
      (execute none none st).1.pc = (st.pc + instrLen 0x4a) % 65536) ∧
    (st.bus.read_byte st.pc = 0x4b →
      (execute none none st).1.pc = (st.pc + instrLen 0x4b) % 65536) ∧
    (st.bus.read_byte st.pc = 0x4c →
      (execute none none st).1.pc = (st.pc + instrLen 0x4c) % 65536) ∧
    (st.bus.read_byte st.pc = 0x4d →
      (execute none none st).1.pc = (st.pc + instrLen 0x4d) % 65536) ∧
    (st.bus.read_byte st.pc = 0x4e →
      (execute none none st).1.pc = (st.pc + instrLen 0x4e) % 65536) ∧
    (st.bus.read_byte st.pc = 0x4f →
      (execute none none st).1.pc = (st.pc + instrLen 0x4f) % 65536) ∧
    (st.bus.read_byte st.pc = 0x50 →
      (execute none none st).1.pc = (st.pc + instrLen 0x50) % 65536) ∧
    (st.bus.read_byte st.pc = 0x51 →
      (execute none none st).1.pc = (st.pc + instrLen 0x51) % 65536) ∧
    (st.bus.read_byte st.pc = 0x52 →
      (execute none none st).1.pc = (st.pc + instrLen 0x52) % 65536) ∧
    (st.bus.read_byte st.pc = 0x53 →
      (execute none none st).1.pc = (st.pc + instrLen 0x53) % 65536) ∧
    (st.bus.read_byte st.pc = 0x54 →
      (execute none none st).1.pc = (st.pc + instrLen 0x54) % 65536) ∧
    (st.bus.read_byte st.pc = 0x55 →
      (execute none none st).1.pc = (st.pc + instrLen 0x55) % 65536) ∧
    (st.bus.read_byte st.pc = 0x56 →
      (execute none none st).1.pc = (st.pc + instrLen 0x56) % 65536) ∧
    (st.bus.read_byte st.pc = 0x57 →
      (execute none none st).1.pc = (st.pc + instrLen 0x57) % 65536) ∧
    (st.bus.read_byte st.pc = 0x58 →
      (execute none none st).1.pc = (st.pc + instrLen 0x58) % 65536) ∧
    (st.bus.read_byte st.pc = 0x59 →
      (execute none none st).1.pc = (st.pc + instrLen 0x59) % 65536) ∧
    (st.bus.read_byte st.pc = 0x5a →
      (execute none none st).1.pc = (st.pc + instrLen 0x5a) % 65536) ∧
    (st.bus.read_byte st.pc = 0x5b →
      (execute none none st).1.pc = (st.pc + instrLen 0x5b) % 65536) ∧
    (st.bus.read_byte st.pc = 0x5c →
      (execute none none st).1.pc = (st.pc + instrLen 0x5c) % 65536) ∧
    (st.bus.read_byte st.pc = 0x5d →
      (execute none none st).1.pc = (st.pc + instrLen 0x5d) % 65536) ∧
    (st.bus.read_byte st.pc = 0x5e →
      (execute none none st).1.pc = (st.pc + instrLen 0x5e) % 65536) ∧
    (st.bus.read_byte st.pc = 0x5f →
      (execute none none st).1.pc = (st.pc + instrLen 0x5f) % 65536) ∧
    (st.bus.read_byte st.pc = 0x60 →
      (execute none none st).1.pc = (st.pc + instrLen 0x60) % 65536) ∧
    (st.bus.read_byte st.pc = 0x61 →
      (execute none none st).1.pc = (st.pc + instrLen 0x61) % 65536) ∧
    (st.bus.read_byte st.pc = 0x62 →
      (execute none none st).1.pc = (st.pc + instrLen 0x62) % 65536) ∧
    (st.bus.read_byte st.pc = 0x63 →
      (execute none none st).1.pc = (st.pc + instrLen 0x63) % 65536) ∧
    (st.bus.read_byte st.pc = 0x64 →
      (execute none none st).1.pc = (st.pc + instrLen 0x64) % 65536) ∧
    (st.bus.read_byte st.pc = 0x65 →
      (execute none none st).1.pc = (st.pc + instrLen 0x65) % 65536) ∧
    (st.bus.read_byte st.pc = 0x66 →
      (execute none none st).1.pc = (st.pc + instrLen 0x66) % 65536) ∧
    (st.bus.read_byte st.pc = 0x67 →
      (execute none none st).1.pc = (st.pc + instrLen 0x67) % 65536) ∧
    (st.bus.read_byte st.pc = 0x68 →
      (execute none none st).1.pc = (st.pc + instrLen 0x68) % 65536) ∧
    (st.bus.read_byte st.pc = 0x69 →
      (execute none none st).1.pc = (st.pc + instrLen 0x69) % 65536) ∧
    (st.bus.read_byte st.pc = 0x6a →
      (execute none none st).1.pc = (st.pc + instrLen 0x6a) % 65536) ∧
    (st.bus.read_byte st.pc = 0x6b →
      (execute none none st).1.pc = (st.pc + instrLen 0x6b) % 65536) ∧
    (st.bus.read_byte st.pc = 0x6c →
      (execute none none st).1.pc = (st.pc + instrLen 0x6c) % 65536) ∧
    (st.bus.read_byte st.pc = 0x6d →
      (execute none none st).1.pc = (st.pc + instrLen 0x6d) % 65536) ∧
    (st.bus.read_byte st.pc = 0x6e →
      (execute none none st).1.pc = (st.pc + instrLen 0x6e) % 65536) ∧
    (st.bus.read_byte st.pc = 0x6f →
      (execute none none st).1.pc = (st.pc + instrLen 0x6f) % 65536) ∧
    (st.bus.read_byte st.pc = 0x70 →
      (execute none none st).1.pc = (st.pc + instrLen 0x70) % 65536) ∧
    (st.bus.read_byte st.pc = 0x71 →
      (execute none none st).1.pc = (st.pc + instrLen 0x71) % 65536) ∧
    (st.bus.read_byte st.pc = 0x72 →
      (execute none none st).1.pc = (st.pc + instrLen 0x72) % 65536) ∧
    (st.bus.read_byte st.pc = 0x73 →
      (execute none none st).1.pc = (st.pc + instrLen 0x73) % 65536) ∧
    (st.bus.read_byte st.pc = 0x74 →
      (execute none none st).1.pc = (st.pc + instrLen 0x74) % 65536) ∧
    (st.bus.read_byte st.pc = 0x75 →
      (execute none none st).1.pc = (st.pc + instrLen 0x75) % 65536) ∧
    (st.bus.read_byte st.pc = 0x76 →
      (execute none none st).1.pc = (st.pc + instrLen 0x76) % 65536) ∧
    (st.bus.read_byte st.pc = 0x77 →
      (execute none none st).1.pc = (st.pc + instrLen 0x77) % 65536) ∧
    (st.bus.read_byte st.pc = 0x78 →
      (execute none none st).1.pc = (st.pc + instrLen 0x78) % 65536) ∧
    (st.bus.read_byte st.pc = 0x79 →
      (execute none none st).1.pc = (st.pc + instrLen 0x79) % 65536) ∧
    (st.bus.read_byte st.pc = 0x7a →
      (execute none none st).1.pc = (st.pc + instrLen 0x7a) % 65536) ∧
    (st.bus.read_byte st.pc = 0x7b →
      (execute none none st).1.pc = (st.pc + instrLen 0x7b) % 65536) ∧
    (st.bus.read_byte st.pc = 0x7c →
      (execute none none st).1.pc = (st.pc + instrLen 0x7c) % 65536) ∧
    (st.bus.read_byte st.pc = 0x7d →
      (execute none none st).1.pc = (st.pc + instrLen 0x7d) % 65536) ∧
    (st.bus.read_byte st.pc = 0x7e →
      (execute none none st).1.pc = (st.pc + instrLen 0x7e) % 65536) ∧
    (st.bus.read_byte st.pc = 0x7f →
      (execute none none st).1.pc = (st.pc + instrLen 0x7f) % 65536) ∧
    (st.bus.read_byte st.pc = 0x80 →
      (execute none none st).1.pc = (st.pc + instrLen 0x80) % 65536) ∧
    (st.bus.read_byte st.pc = 0x81 →
      (execute none none st).1.pc = (st.pc + instrLen 0x81) % 65536) ∧
    (st.bus.read_byte st.pc = 0x82 →
      (execute none none st).1.pc = (st.pc + instrLen 0x82) % 65536) ∧
    (st.bus.read_byte st.pc = 0x83 →
      (execute none none st).1.pc = (st.pc + instrLen 0x83) % 65536) ∧
    (st.bus.read_byte st.pc = 0x84 →
      (execute none none st).1.pc = (st.pc + instrLen 0x84) % 65536) ∧
    (st.bus.read_byte st.pc = 0x85 →
      (execute none none st).1.pc = (st.pc + instrLen 0x85) % 65536) ∧
    (st.bus.read_byte st.pc = 0x86 →
      (execute none none st).1.pc = (st.pc + instrLen 0x86) % 65536) ∧
    (st.bus.read_byte st.pc = 0x87 →
      (execute none none st).1.pc = (st.pc + instrLen 0x87) % 65536) ∧
    (st.bus.read_byte st.pc = 0x88 →
      (execute none none st).1.pc = (st.pc + instrLen 0x88) % 65536) ∧
    (st.bus.read_byte st.pc = 0x89 →
      (execute none none st).1.pc = (st.pc + instrLen 0x89) % 65536) ∧
    (st.bus.read_byte st.pc = 0x8a →
      (execute none none st).1.pc = (st.pc + instrLen 0x8a) % 65536) ∧
    (st.bus.read_byte st.pc = 0x8b →
      (execute none none st).1.pc = (st.pc + instrLen 0x8b) % 65536) ∧
    (st.bus.read_byte st.pc = 0x8c →
      (execute none none st).1.pc = (st.pc + instrLen 0x8c) % 65536) ∧
    (st.bus.read_byte st.pc = 0x8d →
      (execute none none st).1.pc = (st.pc + instrLen 0x8d) % 65536) ∧
    (st.bus.read_byte st.pc = 0x8e →
      (execute none none st).1.pc = (st.pc + instrLen 0x8e) % 65536) ∧
    (st.bus.read_byte st.pc = 0x8f →
      (execute none none st).1.pc = (st.pc + instrLen 0x8f) % 65536) ∧
    (st.bus.read_byte st.pc = 0x90 →
      (execute none none st).1.pc = (st.pc + instrLen 0x90) % 65536) ∧
    (st.bus.read_byte st.pc = 0x91 →
      (execute none none st).1.pc = (st.pc + instrLen 0x91) % 65536) ∧
    (st.bus.read_byte st.pc = 0x92 →
      (execute none none st).1.pc = (st.pc + instrLen 0x92) % 65536) ∧
    (st.bus.read_byte st.pc = 0x93 →
      (execute none none st).1.pc = (st.pc + instrLen 0x93) % 65536) ∧
    (st.bus.read_byte st.pc = 0x94 →
      (execute none none st).1.pc = (st.pc + instrLen 0x94) % 65536) ∧
    (st.bus.read_byte st.pc = 0x95 →
      (execute none none st).1.pc = (st.pc + instrLen 0x95) % 65536) ∧
    (st.bus.read_byte st.pc = 0x96 →
      (execute none none st).1.pc = (st.pc + instrLen 0x96) % 65536) ∧
    (st.bus.read_byte st.pc = 0x97 →
      (execute none none st).1.pc = (st.pc + instrLen 0x97) % 65536) ∧
    (st.bus.read_byte st.pc = 0x98 →
      (execute none none st).1.pc = (st.pc + instrLen 0x98) % 65536) ∧
    (st.bus.read_byte st.pc = 0x99 →
      (execute none none st).1.pc = (st.pc + instrLen 0x99) % 65536) ∧
    (st.bus.read_byte st.pc = 0x9a →
      (execute none none st).1.pc = (st.pc + instrLen 0x9a) % 65536) ∧
    (st.bus.read_byte st.pc = 0x9b →
      (execute none none st).1.pc = (st.pc + instrLen 0x9b) % 65536) ∧
    (st.bus.read_byte st.pc = 0x9c →
      (execute none none st).1.pc = (st.pc + instrLen 0x9c) % 65536) ∧
    (st.bus.read_byte st.pc = 0x9d →
      (execute none none st).1.pc = (st.pc + instrLen 0x9d) % 65536) ∧
    (st.bus.read_byte st.pc = 0x9e →
      (execute none none st).1.pc = (st.pc + instrLen 0x9e) % 65536) ∧
    (st.bus.read_byte st.pc = 0x9f →
      (execute none none st).1.pc = (st.pc + instrLen 0x9f) % 65536) ∧
    (st.bus.read_byte st.pc = 0xa0 →
      (execute none none st).1.pc = (st.pc + instrLen 0xa0) % 65536) ∧
    (st.bus.read_byte st.pc = 0xa1 →
      (execute none none st).1.pc = (st.pc + instrLen 0xa1) % 65536) ∧
    (st.bus.read_byte st.pc = 0xa2 →
      (execute none none st).1.pc = (st.pc + instrLen 0xa2) % 65536) ∧
    (st.bus.read_byte st.pc = 0xa3 →
      (execute none none st).1.pc = (st.pc + instrLen 0xa3) % 65536) ∧
    (st.bus.read_byte st.pc = 0xa4 →
      (execute none none st).1.pc = (st.pc + instrLen 0xa4) % 65536) ∧
    (st.bus.read_byte st.pc = 0xa5 →
      (execute none none st).1.pc = (st.pc + instrLen 0xa5) % 65536) ∧
    (st.bus.read_byte st.pc = 0xa6 →
      (execute none none st).1.pc = (st.pc + instrLen 0xa6) % 65536) ∧
    (st.bus.read_byte st.pc = 0xa7 →
      (execute none none st).1.pc = (st.pc + instrLen 0xa7) % 65536) ∧
    (st.bus.read_byte st.pc = 0xa8 →
      (execute none none st).1.pc = (st.pc + instrLen 0xa8) % 65536) ∧
    (st.bus.read_byte st.pc = 0xa9 →
      (execute none none st).1.pc = (st.pc + instrLen 0xa9) % 65536) ∧
    (st.bus.read_byte st.pc = 0xaa →
      (execute none none st).1.pc = (st.pc + instrLen 0xaa) % 65536) ∧
    (st.bus.read_byte st.pc = 0xab →
      (execute none none st).1.pc = (st.pc + instrLen 0xab) % 65536) ∧
    (st.bus.read_byte st.pc = 0xac →
      (execute none none st).1.pc = (st.pc + instrLen 0xac) % 65536) ∧
    (st.bus.read_byte st.pc = 0xad →
      (execute none none st).1.pc = (st.pc + instrLen 0xad) % 65536) ∧
    (st.bus.read_byte st.pc = 0xae →
      (execute none none st).1.pc = (st.pc + instrLen 0xae) % 65536) ∧
    (st.bus.read_byte st.pc = 0xaf →
      (execute none none st).1.pc = (st.pc + instrLen 0xaf) % 65536) ∧
    (st.bus.read_byte st.pc = 0xb0 →
      (execute none none st).1.pc = (st.pc + instrLen 0xb0) % 65536) ∧
    (st.bus.read_byte st.pc = 0xb1 →
      (execute none none st).1.pc = (st.pc + instrLen 0xb1) % 65536) ∧
    (st.bus.read_byte st.pc = 0xb2 →
      (execute none none st).1.pc = (st.pc + instrLen 0xb2) % 65536) ∧
    (st.bus.read_byte st.pc = 0xb3 →
      (execute none none st).1.pc = (st.pc + instrLen 0xb3) % 65536) ∧
    (st.bus.read_byte st.pc = 0xb4 →
      (execute none none st).1.pc = (st.pc + instrLen 0xb4) % 65536) ∧
    (st.bus.read_byte st.pc = 0xb5 →
      (execute none none st).1.pc = (st.pc + instrLen 0xb5) % 65536) ∧
    (st.bus.read_byte st.pc = 0xb6 →
      (execute none none st).1.pc = (st.pc + instrLen 0xb6) % 65536) ∧
    (st.bus.read_byte st.pc = 0xb7 →
      (execute none none st).1.pc = (st.pc + instrLen 0xb7) % 65536) ∧
    (st.bus.read_byte st.pc = 0xb8 →
      (execute none none st).1.pc = (st.pc + instrLen 0xb8) % 65536) ∧
    (st.bus.read_byte st.pc = 0xb9 →
      (execute none none st).1.pc = (st.pc + instrLen 0xb9) % 65536) ∧
    (st.bus.read_byte st.pc = 0xba →
      (execute none none st).1.pc = (st.pc + instrLen 0xba) % 65536) ∧
    (st.bus.read_byte st.pc = 0xbb →
      (execute none none st).1.pc = (st.pc + instrLen 0xbb) % 65536) ∧
    (st.bus.read_byte st.pc = 0xbc →
      (execute none none st).1.pc = (st.pc + instrLen 0xbc) % 65536) ∧
    (st.bus.read_byte st.pc = 0xbd →
      (execute none none st).1.pc = (st.pc + instrLen 0xbd) % 65536) ∧
    (st.bus.read_byte st.pc = 0xbe →
      (execute none none st).1.pc = (st.pc + instrLen 0xbe) % 65536) ∧
    (st.bus.read_byte st.pc = 0xbf →
      (execute none none st).1.pc = (st.pc + instrLen 0xbf) % 65536) ∧
    (st.bus.read_byte st.pc = 0xc1 →
      (execute none none st).1.pc = (st.pc + instrLen 0xc1) % 65536) ∧
    (st.bus.read_byte st.pc = 0xc5 →
      (execute none none st).1.pc = (st.pc + instrLen 0xc5) % 65536) ∧
    (st.bus.read_byte st.pc = 0xc6 →
      (execute none none st).1.pc = (st.pc + instrLen 0xc6) % 65536) ∧
    (st.bus.read_byte st.pc = 0xcb →
      (execute none none st).1.pc = (st.pc + instrLen 0xcb) % 65536) ∧
    (st.bus.read_byte st.pc = 0xce →
      (execute none none st).1.pc = (st.pc + instrLen 0xce) % 65536) ∧
    (st.bus.read_byte st.pc = 0xd1 →
      (execute none none st).1.pc = (st.pc + instrLen 0xd1) % 65536) ∧
    (st.bus.read_byte st.pc = 0xd3 →
      (execute none none st).1.pc = (st.pc + instrLen 0xd3) % 65536) ∧
    (st.bus.read_byte st.pc = 0xd5 →
      (execute none none st).1.pc = (st.pc + instrLen 0xd5) % 65536) ∧
    (st.bus.read_byte st.pc = 0xd6 →
      (execute none none st).1.pc = (st.pc + instrLen 0xd6) % 65536) ∧
    (st.bus.read_byte st.pc = 0xd9 →
      (execute none none st).1.pc = (st.pc + instrLen 0xd9) % 65536) ∧
    (st.bus.read_byte st.pc = 0xdb →
      (execute none none st).1.pc = (st.pc + instrLen 0xdb) % 65536) ∧
    (st.bus.read_byte st.pc = 0xdd →
      (execute none none st).1.pc = (st.pc + instrLen 0xdd) % 65536) ∧
    (st.bus.read_byte st.pc = 0xde →
      (execute none none st).1.pc = (st.pc + instrLen 0xde) % 65536) ∧
    (st.bus.read_byte st.pc = 0xe1 →
      (execute none none st).1.pc = (st.pc + instrLen 0xe1) % 65536) ∧
    (st.bus.read_byte st.pc = 0xe3 →
      (execute none none st).1.pc = (st.pc + instrLen 0xe3) % 65536) ∧
    (st.bus.read_byte st.pc = 0xe5 →
      (execute none none st).1.pc = (st.pc + instrLen 0xe5) % 65536) ∧
    (st.bus.read_byte st.pc = 0xe6 →
      (execute none none st).1.pc = (st.pc + instrLen 0xe6) % 65536) ∧
    (st.bus.read_byte st.pc = 0xeb →
      (execute none none st).1.pc = (st.pc + instrLen 0xeb) % 65536) ∧
    (st.bus.read_byte st.pc = 0xed →
      (execute none none st).1.pc = (st.pc + instrLen 0xed) % 65536) ∧
    (st.bus.read_byte st.pc = 0xee →
      (execute none none st).1.pc = (st.pc + instrLen 0xee) % 65536) ∧
    (st.bus.read_byte st.pc = 0xf1 →
      (execute none none st).1.pc = (st.pc + instrLen 0xf1) % 65536) ∧
    (st.bus.read_byte st.pc = 0xf3 →
      (execute none none st).1.pc = (st.pc + instrLen 0xf3) % 65536) ∧
    (st.bus.read_byte st.pc = 0xf5 →
      (execute none none st).1.pc = (st.pc + instrLen 0xf5) % 65536) ∧
    (st.bus.read_byte st.pc = 0xf6 →
      (execute none none st).1.pc = (st.pc + instrLen 0xf6) % 65536) ∧
    (st.bus.read_byte st.pc = 0xf9 →
      (execute none none st).1.pc = (st.pc + instrLen 0xf9) % 65536) ∧
    (st.bus.read_byte st.pc = 0xfb →
      (execute none none st).1.pc = (st.pc + instrLen 0xfb) % 65536) ∧
    (st.bus.read_byte st.pc = 0xfd →
      (execute none none st).1.pc = (st.pc + instrLen 0xfd) % 65536) ∧
    (st.bus.read_byte st.pc = 0xfe →
      (execute none none st).1.pc = (st.pc + instrLen 0xfe) % 65536) := by
  obtain ⟨regs, fl, pc, sp, bus, halt0, intr, inte0⟩ := st
  refine ⟨?_, ?_, ?_, ?_, ?_, ?_, ?_, ?_, ?_, ?_, ?_, ?_, ?_, ?_, ?_, ?_, ?_, ?_, ?_, ?_, ?_, ?_, ?_, ?_, ?_, ?_, ?_, ?_, ?_, ?_, ?_, ?_, ?_, ?_, ?_, ?_, ?_, ?_, ?_, ?_, ?_, ?_, ?_, ?_, ?_, ?_, ?_, ?_, ?_, ?_, ?_, ?_, ?_, ?_, ?_, ?_, ?_, ?_, ?_, ?_, ?_, ?_, ?_, ?_, ?_, ?_, ?_, ?_, ?_, ?_, ?_, ?_, ?_, ?_, ?_, ?_, ?_, ?_, ?_, ?_, ?_, ?_, ?_, ?_, ?_, ?_, ?_, ?_, ?_, ?_, ?_, ?_, ?_, ?_, ?_, ?_, ?_, ?_, ?_, ?_, ?_, ?_, ?_, ?_, ?_, ?_, ?_, ?_, ?_, ?_, ?_, ?_, ?_, ?_, ?_, ?_, ?_, ?_, ?_, ?_, ?_, ?_, ?_, ?_, ?_, ?_, ?_, ?_, ?_, ?_, ?_, ?_, ?_, ?_, ?_, ?_, ?_, ?_, ?_, ?_, ?_, ?_, ?_, ?_, ?_, ?_, ?_, ?_, ?_, ?_, ?_, ?_, ?_, ?_, ?_, ?_, ?_, ?_, ?_, ?_, ?_, ?_, ?_, ?_, ?_, ?_, ?_, ?_, ?_, ?_, ?_, ?_, ?_, ?_, ?_, ?_, ?_, ?_, ?_, ?_, ?_, ?_, ?_, ?_, ?_, ?_, ?_, ?_, ?_, ?_, ?_, ?_, ?_, ?_, ?_, ?_, ?_, ?_, ?_, ?_, ?_, ?_, ?_, ?_, ?_, ?_, ?_, ?_, ?_, ?_, ?_, ?_, ?_, ?_, ?_, ?_, ?_, ?_, ?_, ?_⟩
  · intro hop
    rw [execute_normal none none _ 0x00 h1 h2 hop]
    rfl
  · intro hop
    rw [execute_normal none none _ 0x01 h1 h2 hop]
    rfl
  · intro hop
    rw [execute_normal none none _ 0x02 h1 h2 hop]
    rfl
  · intro hop
    rw [execute_normal none none _ 0x03 h1 h2 hop]
    rfl
  · intro hop
    rw [execute_normal none none _ 0x04 h1 h2 hop]
    rfl
  · intro hop
    rw [execute_normal none none _ 0x05 h1 h2 hop]
    rfl
  · intro hop
    rw [execute_normal none none _ 0x06 h1 h2 hop]
    rfl
  · intro hop
    rw [execute_normal none none _ 0x07 h1 h2 hop]
    rfl
  · intro hop
    rw [execute_normal none none _ 0x08 h1 h2 hop]
    rfl
  · intro hop
    rw [execute_normal none none _ 0x09 h1 h2 hop]
    rfl
  · intro hop
    rw [execute_normal none none _ 0x0a h1 h2 hop]
    rfl
  · intro hop
    rw [execute_normal none none _ 0x0b h1 h2 hop]
    rfl
  · intro hop
    rw [execute_normal none none _ 0x0c h1 h2 hop]
    rfl
  · intro hop
    rw [execute_normal none none _ 0x0d h1 h2 hop]
    rfl
  · intro hop
    rw [execute_normal none none _ 0x0e h1 h2 hop]
    rfl
  · intro hop
    rw [execute_normal none none _ 0x0f h1 h2 hop]
    rfl
  · intro hop
    rw [execute_normal none none _ 0x10 h1 h2 hop]
    rfl
  · intro hop
    rw [execute_normal none none _ 0x11 h1 h2 hop]
    rfl
  · intro hop
    rw [execute_normal none none _ 0x12 h1 h2 hop]
    rfl
  · intro hop
    rw [execute_normal none none _ 0x13 h1 h2 hop]
    rfl
  · intro hop
    rw [execute_normal none none _ 0x14 h1 h2 hop]
    rfl
  · intro hop
    rw [execute_normal none none _ 0x15 h1 h2 hop]
    rfl
  · intro hop
    rw [execute_normal none none _ 0x16 h1 h2 hop]
    rfl
  · intro hop
    rw [execute_normal none none _ 0x17 h1 h2 hop]
    rfl
  · intro hop
    rw [execute_normal none none _ 0x18 h1 h2 hop]
    rfl
  · intro hop
    rw [execute_normal none none _ 0x19 h1 h2 hop]
    rfl
  · intro hop
    rw [execute_normal none none _ 0x1a h1 h2 hop]
    rfl
  · intro hop
    rw [execute_normal none none _ 0x1b h1 h2 hop]
    rfl
  · intro hop
    rw [execute_normal none none _ 0x1c h1 h2 hop]
    rfl
  · intro hop
    rw [execute_normal none none _ 0x1d h1 h2 hop]
    rfl
  · intro hop
    rw [execute_normal none none _ 0x1e h1 h2 hop]
    rfl
  · intro hop
    rw [execute_normal none none _ 0x1f h1 h2 hop]
    rfl
  · intro hop
    rw [execute_normal none none _ 0x20 h1 h2 hop]
    rfl
  · intro hop
    rw [execute_normal none none _ 0x21 h1 h2 hop]
    rfl
  · intro hop
    rw [execute_normal none none _ 0x22 h1 h2 hop]
    rfl
  · intro hop
    rw [execute_normal none none _ 0x23 h1 h2 hop]
    rfl
  · intro hop
    rw [execute_normal none none _ 0x24 h1 h2 hop]
    rfl
  · intro hop
    rw [execute_normal none none _ 0x25 h1 h2 hop]
    rfl
  · intro hop
    rw [execute_normal none none _ 0x26 h1 h2 hop]
    rfl
  · intro hop
    rw [execute_normal none none _ 0x27 h1 h2 hop]
    rfl
  · intro hop
    rw [execute_normal none none _ 0x28 h1 h2 hop]
    rfl
  · intro hop
    rw [execute_normal none none _ 0x29 h1 h2 hop]
    rfl
  · intro hop
    rw [execute_normal none none _ 0x2a h1 h2 hop]
    rfl
  · intro hop
    rw [execute_normal none none _ 0x2b h1 h2 hop]
    rfl
  · intro hop
    rw [execute_normal none none _ 0x2c h1 h2 hop]
    rfl
  · intro hop
    rw [execute_normal none none _ 0x2d h1 h2 hop]
    rfl
  · intro hop
    rw [execute_normal none none _ 0x2e h1 h2 hop]
    rfl
  · intro hop
    rw [execute_normal none none _ 0x2f h1 h2 hop]
    rfl
  · intro hop
    rw [execute_normal none none _ 0x30 h1 h2 hop]
    rfl
  · intro hop
    rw [execute_normal none none _ 0x31 h1 h2 hop]
    rfl
  · intro hop
    rw [execute_normal none none _ 0x32 h1 h2 hop]
    rfl
  · intro hop
    rw [execute_normal none none _ 0x33 h1 h2 hop]
    rfl
  · intro hop
    rw [execute_normal none none _ 0x34 h1 h2 hop]
    rfl
  · intro hop
    rw [execute_normal none none _ 0x35 h1 h2 hop]
    rfl
  · intro hop
    rw [execute_normal none none _ 0x36 h1 h2 hop]
    rfl
  · intro hop
    rw [execute_normal none none _ 0x37 h1 h2 hop]
    rfl
  · intro hop
    rw [execute_normal none none _ 0x38 h1 h2 hop]
    rfl
  · intro hop
    rw [execute_normal none none _ 0x39 h1 h2 hop]
    rfl
  · intro hop
    rw [execute_normal none none _ 0x3a h1 h2 hop]
    rfl
  · intro hop
    rw [execute_normal none none _ 0x3b h1 h2 hop]
    rfl
  · intro hop
    rw [execute_normal none none _ 0x3c h1 h2 hop]
    rfl
  · intro hop
    rw [execute_normal none none _ 0x3d h1 h2 hop]
    rfl
  · intro hop
    rw [execute_normal none none _ 0x3e h1 h2 hop]
    rfl
  · intro hop
    rw [execute_normal none none _ 0x3f h1 h2 hop]
    rfl
  · intro hop
    rw [execute_normal none none _ 0x40 h1 h2 hop]
    rfl
  · intro hop
    rw [execute_normal none none _ 0x41 h1 h2 hop]
    rfl
  · intro hop
    rw [execute_normal none none _ 0x42 h1 h2 hop]
    rfl
  · intro hop
    rw [execute_normal none none _ 0x43 h1 h2 hop]
    rfl
  · intro hop
    rw [execute_normal none none _ 0x44 h1 h2 hop]
    rfl
  · intro hop
    rw [execute_normal none none _ 0x45 h1 h2 hop]
    rfl
  · intro hop
    rw [execute_normal none none _ 0x46 h1 h2 hop]
    rfl
  · intro hop
    rw [execute_normal none none _ 0x47 h1 h2 hop]
    rfl
  · intro hop
    rw [execute_normal none none _ 0x48 h1 h2 hop]
    rfl
  · intro hop
    rw [execute_normal none none _ 0x49 h1 h2 hop]
    rfl
  · intro hop
    rw [execute_normal none none _ 0x4a h1 h2 hop]
    rfl
  · intro hop
    rw [execute_normal none none _ 0x4b h1 h2 hop]
    rfl
  · intro hop
    rw [execute_normal none none _ 0x4c h1 h2 hop]
    rfl
  · intro hop
    rw [execute_normal none none _ 0x4d h1 h2 hop]
    rfl
  · intro hop
    rw [execute_normal none none _ 0x4e h1 h2 hop]
    rfl
  · intro hop
    rw [execute_normal none none _ 0x4f h1 h2 hop]
    rfl
  · intro hop
    rw [execute_normal none none _ 0x50 h1 h2 hop]
    rfl
  · intro hop
    rw [execute_normal none none _ 0x51 h1 h2 hop]
    rfl
  · intro hop
    rw [execute_normal none none _ 0x52 h1 h2 hop]
    rfl
  · intro hop
    rw [execute_normal none none _ 0x53 h1 h2 hop]
    rfl
  · intro hop
    rw [execute_normal none none _ 0x54 h1 h2 hop]
    rfl
  · intro hop
    rw [execute_normal none none _ 0x55 h1 h2 hop]
    rfl
  · intro hop
    rw [execute_normal none none _ 0x56 h1 h2 hop]
    rfl
  · intro hop
    rw [execute_normal none none _ 0x57 h1 h2 hop]
    rfl
  · intro hop
    rw [execute_normal none none _ 0x58 h1 h2 hop]
    rfl
  · intro hop
    rw [execute_normal none none _ 0x59 h1 h2 hop]
    rfl
  · intro hop
    rw [execute_normal none none _ 0x5a h1 h2 hop]
    rfl
  · intro hop
    rw [execute_normal none none _ 0x5b h1 h2 hop]
    rfl
  · intro hop
    rw [execute_normal none none _ 0x5c h1 h2 hop]
    rfl
  · intro hop
    rw [execute_normal none none _ 0x5d h1 h2 hop]
    rfl
  · intro hop
    rw [execute_normal none none _ 0x5e h1 h2 hop]
    rfl
  · intro hop
    rw [execute_normal none none _ 0x5f h1 h2 hop]
    rfl
  · intro hop
    rw [execute_normal none none _ 0x60 h1 h2 hop]
    rfl
  · intro hop
    rw [execute_normal none none _ 0x61 h1 h2 hop]
    rfl
  · intro hop
    rw [execute_normal none none _ 0x62 h1 h2 hop]
    rfl
  · intro hop
    rw [execute_normal none none _ 0x63 h1 h2 hop]
    rfl
  · intro hop
    rw [execute_normal none none _ 0x64 h1 h2 hop]
    rfl
  · intro hop
    rw [execute_normal none none _ 0x65 h1 h2 hop]
    rfl
  · intro hop
    rw [execute_normal none none _ 0x66 h1 h2 hop]
    rfl
  · intro hop
    rw [execute_normal none none _ 0x67 h1 h2 hop]
    rfl
  · intro hop
    rw [execute_normal none none _ 0x68 h1 h2 hop]
    rfl
  · intro hop
    rw [execute_normal none none _ 0x69 h1 h2 hop]
    rfl
  · intro hop
    rw [execute_normal none none _ 0x6a h1 h2 hop]
    rfl
  · intro hop
    rw [execute_normal none none _ 0x6b h1 h2 hop]
    rfl
  · intro hop
    rw [execute_normal none none _ 0x6c h1 h2 hop]
    rfl
  · intro hop
    rw [execute_normal none none _ 0x6d h1 h2 hop]
    rfl
  · intro hop
    rw [execute_normal none none _ 0x6e h1 h2 hop]
    rfl
  · intro hop
    rw [execute_normal none none _ 0x6f h1 h2 hop]
    rfl
  · intro hop
    rw [execute_normal none none _ 0x70 h1 h2 hop]
    rfl
  · intro hop
    rw [execute_normal none none _ 0x71 h1 h2 hop]
    rfl
  · intro hop
    rw [execute_normal none none _ 0x72 h1 h2 hop]
    rfl
  · intro hop
    rw [execute_normal none none _ 0x73 h1 h2 hop]
    rfl
  · intro hop
    rw [execute_normal none none _ 0x74 h1 h2 hop]
    rfl
  · intro hop
    rw [execute_normal none none _ 0x75 h1 h2 hop]
    rfl
  · intro hop
    rw [execute_normal none none _ 0x76 h1 h2 hop]
    rfl
  · intro hop
    rw [execute_normal none none _ 0x77 h1 h2 hop]
    rfl
  · intro hop
    rw [execute_normal none none _ 0x78 h1 h2 hop]
    rfl
  · intro hop
    rw [execute_normal none none _ 0x79 h1 h2 hop]
    rfl
  · intro hop
    rw [execute_normal none none _ 0x7a h1 h2 hop]
    rfl
  · intro hop
    rw [execute_normal none none _ 0x7b h1 h2 hop]
    rfl
  · intro hop
    rw [execute_normal none none _ 0x7c h1 h2 hop]
    rfl
  · intro hop
    rw [execute_normal none none _ 0x7d h1 h2 hop]
    rfl
  · intro hop
    rw [execute_normal none none _ 0x7e h1 h2 hop]
    rfl
  · intro hop
    rw [execute_normal none none _ 0x7f h1 h2 hop]
    rfl
  · intro hop
    rw [execute_normal none none _ 0x80 h1 h2 hop]
    rfl
  · intro hop
    rw [execute_normal none none _ 0x81 h1 h2 hop]
    rfl
  · intro hop
    rw [execute_normal none none _ 0x82 h1 h2 hop]
    rfl
  · intro hop
    rw [execute_normal none none _ 0x83 h1 h2 hop]
    rfl
  · intro hop
    rw [execute_normal none none _ 0x84 h1 h2 hop]
    rfl
  · intro hop
    rw [execute_normal none none _ 0x85 h1 h2 hop]
    rfl
  · intro hop
    rw [execute_normal none none _ 0x86 h1 h2 hop]
    rfl
  · intro hop
    rw [execute_normal none none _ 0x87 h1 h2 hop]
    rfl
  · intro hop
    rw [execute_normal none none _ 0x88 h1 h2 hop]
    rfl
  · intro hop
    rw [execute_normal none none _ 0x89 h1 h2 hop]
    rfl
  · intro hop
    rw [execute_normal none none _ 0x8a h1 h2 hop]
    rfl
  · intro hop
    rw [execute_normal none none _ 0x8b h1 h2 hop]
    rfl
  · intro hop
    rw [execute_normal none none _ 0x8c h1 h2 hop]
    rfl
  · intro hop
    rw [execute_normal none none _ 0x8d h1 h2 hop]
    rfl
  · intro hop
    rw [execute_normal none none _ 0x8e h1 h2 hop]
    rfl
  · intro hop
    rw [execute_normal none none _ 0x8f h1 h2 hop]
    rfl
  · intro hop
    rw [execute_normal none none _ 0x90 h1 h2 hop]
    rfl
  · intro hop
    rw [execute_normal none none _ 0x91 h1 h2 hop]
    rfl
  · intro hop
    rw [execute_normal none none _ 0x92 h1 h2 hop]
    rfl
  · intro hop
    rw [execute_normal none none _ 0x93 h1 h2 hop]
    rfl
  · intro hop
    rw [execute_normal none none _ 0x94 h1 h2 hop]
    rfl
  · intro hop
    rw [execute_normal none none _ 0x95 h1 h2 hop]
    rfl
  · intro hop
    rw [execute_normal none none _ 0x96 h1 h2 hop]
    rfl
  · intro hop
    rw [execute_normal none none _ 0x97 h1 h2 hop]
    rfl
  · intro hop
    rw [execute_normal none none _ 0x98 h1 h2 hop]
    rfl
  · intro hop
    rw [execute_normal none none _ 0x99 h1 h2 hop]
    rfl
  · intro hop
    rw [execute_normal none none _ 0x9a h1 h2 hop]
    rfl
  · intro hop
    rw [execute_normal none none _ 0x9b h1 h2 hop]
    rfl
  · intro hop
    rw [execute_normal none none _ 0x9c h1 h2 hop]
    rfl
  · intro hop
    rw [execute_normal none none _ 0x9d h1 h2 hop]
    rfl
  · intro hop
    rw [execute_normal none none _ 0x9e h1 h2 hop]
    rfl
  · intro hop
    rw [execute_normal none none _ 0x9f h1 h2 hop]
    rfl
  · intro hop
    rw [execute_normal none none _ 0xa0 h1 h2 hop]
    rfl
  · intro hop
    rw [execute_normal none none _ 0xa1 h1 h2 hop]
    rfl
  · intro hop
    rw [execute_normal none none _ 0xa2 h1 h2 hop]
    rfl
  · intro hop
    rw [execute_normal none none _ 0xa3 h1 h2 hop]
    rfl
  · intro hop
    rw [execute_normal none none _ 0xa4 h1 h2 hop]
    rfl
  · intro hop
    rw [execute_normal none none _ 0xa5 h1 h2 hop]
    rfl
  · intro hop
    rw [execute_normal none none _ 0xa6 h1 h2 hop]
    rfl
  · intro hop
    rw [execute_normal none none _ 0xa7 h1 h2 hop]
    rfl
  · intro hop
    rw [execute_normal none none _ 0xa8 h1 h2 hop]
    rfl
  · intro hop
    rw [execute_normal none none _ 0xa9 h1 h2 hop]
    rfl
  · intro hop
    rw [execute_normal none none _ 0xaa h1 h2 hop]
    rfl
  · intro hop
    rw [execute_normal none none _ 0xab h1 h2 hop]
    rfl
  · intro hop
    rw [execute_normal none none _ 0xac h1 h2 hop]
    rfl
  · intro hop
    rw [execute_normal none none _ 0xad h1 h2 hop]
    rfl
  · intro hop
    rw [execute_normal none none _ 0xae h1 h2 hop]
    rfl
  · intro hop
    rw [execute_normal none none _ 0xaf h1 h2 hop]
    rfl
  · intro hop
    rw [execute_normal none none _ 0xb0 h1 h2 hop]
    rfl
  · intro hop
    rw [execute_normal none none _ 0xb1 h1 h2 hop]
    rfl
  · intro hop
    rw [execute_normal none none _ 0xb2 h1 h2 hop]
    rfl
  · intro hop
    rw [execute_normal none none _ 0xb3 h1 h2 hop]
    rfl
  · intro hop
    rw [execute_normal none none _ 0xb4 h1 h2 hop]
    rfl
  · intro hop
    rw [execute_normal none none _ 0xb5 h1 h2 hop]
    rfl
  · intro hop
    rw [execute_normal none none _ 0xb6 h1 h2 hop]
    rfl
  · intro hop
    rw [execute_normal none none _ 0xb7 h1 h2 hop]
    rfl
  · intro hop
    rw [execute_normal none none _ 0xb8 h1 h2 hop]
    rfl
  · intro hop
    rw [execute_normal none none _ 0xb9 h1 h2 hop]
    rfl
  · intro hop
    rw [execute_normal none none _ 0xba h1 h2 hop]
    rfl
  · intro hop
    rw [execute_normal none none _ 0xbb h1 h2 hop]
    rfl
  · intro hop
    rw [execute_normal none none _ 0xbc h1 h2 hop]
    rfl
  · intro hop
    rw [execute_normal none none _ 0xbd h1 h2 hop]
    rfl
  · intro hop
    rw [execute_normal none none _ 0xbe h1 h2 hop]
    rfl
  · intro hop
    rw [execute_normal none none _ 0xbf h1 h2 hop]
    rfl
  · intro hop
    rw [execute_normal none none _ 0xc1 h1 h2 hop]
    rfl
  · intro hop
    rw [execute_normal none none _ 0xc5 h1 h2 hop]
    rfl
  · intro hop
    rw [execute_normal none none _ 0xc6 h1 h2 hop]
    rfl
  · intro hop
    rw [execute_normal none none _ 0xcb h1 h2 hop]
    rfl
  · intro hop
    rw [execute_normal none none _ 0xce h1 h2 hop]
    rfl
  · intro hop
    rw [execute_normal none none _ 0xd1 h1 h2 hop]
    rfl
  · intro hop
    rw [execute_normal none none _ 0xd3 h1 h2 hop]
    rfl
  · intro hop
    rw [execute_normal none none _ 0xd5 h1 h2 hop]
    rfl
  · intro hop
    rw [execute_normal none none _ 0xd6 h1 h2 hop]
    rfl
  · intro hop
    rw [execute_normal none none _ 0xd9 h1 h2 hop]
    rfl
  · intro hop
    rw [execute_normal none none _ 0xdb h1 h2 hop]
    rfl
  · intro hop
    rw [execute_normal none none _ 0xdd h1 h2 hop]
    rfl
  · intro hop
    rw [execute_normal none none _ 0xde h1 h2 hop]
    rfl
  · intro hop
    rw [execute_normal none none _ 0xe1 h1 h2 hop]
    rfl
  · intro hop
    rw [execute_normal none none _ 0xe3 h1 h2 hop]
    rfl
  · intro hop
    rw [execute_normal none none _ 0xe5 h1 h2 hop]
    rfl
  · intro hop
    rw [execute_normal none none _ 0xe6 h1 h2 hop]
    rfl
  · intro hop
    rw [execute_normal none none _ 0xeb h1 h2 hop]
    rfl
  · intro hop
    rw [execute_normal none none _ 0xed h1 h2 hop]
    rfl
  · intro hop
    rw [execute_normal none none _ 0xee h1 h2 hop]
    rfl
  · intro hop
    rw [execute_normal none none _ 0xf1 h1 h2 hop]
    rfl
  · intro hop
    rw [execute_normal none none _ 0xf3 h1 h2 hop]
    rfl
  · intro hop
    rw [execute_normal none none _ 0xf5 h1 h2 hop]
    rfl
  · intro hop
    rw [execute_normal none none _ 0xf6 h1 h2 hop]
    rfl
  · intro hop
    rw [execute_normal none none _ 0xf9 h1 h2 hop]
    rfl
  · intro hop
    rw [execute_normal none none _ 0xfb h1 h2 hop]
    rfl
  · intro hop
    rw [execute_normal none none _ 0xfd h1 h2 hop]
    rfl
  · intro hop
    rw [execute_normal none none _ 0xfe h1 h2 hop]
    rfl

set_option maxHeartbeats 2000000

/-- Witness for C8: the NOP at 0 advances PC to 1, the length-table
entry for a one-byte opcode. -/
theorem c8_pc_advance_witness :
    (execute none none c8cpu).1.pc = 1 := by
  have h := (c8_pc_advance c8cpu rfl rfl).1 rfl
  simpa using h
